import Mathlib

/-! # Timers, poked renderer and camera flights of `vtkRenderWindowInteractor`

A shallow embedding of three parts of
`src/VTKMultiTouch/Rendering/vtkRenderWindowInteractor.cxx`: the timer bookkeeping
(`CreateTimer` to `GetCurrentTimerId`), the selection `FindPokedRenderer`, and the flights
`FlyTo` and `FlyToImage` with `Render`. The definitions come first, part by part, then the
theorems.

Modelling decisions for the timers (those of the other two parts stand at their
definitions).

* `int` values (timer ids, platform timer ids, return codes) are `Int`; `unsigned long`
  durations are `Nat`. The only arithmetic in the timer code is `++vtkTimerId` on a signed
  `int`, whose overflow is undefined behaviour in C++; the model describes the executions in
  which the counter stays below `INT_MAX`, where `int` addition and `Int` addition agree
  (`counter_bounded_by_calls`: every run of fewer than `INT_MAX - 1` calls is one).
* `vtkstd::map<int,vtkTimerStruct>` is the list of its (key, value) nodes in iteration order
  (ascending keys). The operations used by the source (`find`, `operator[]` followed by an
  assignment, `erase`, iteration from `begin()`) are defined on all lists and keep the
  ascending-key shape (`mapWF`).
* `InternalCreateTimer` and `InternalDestroyTimer` are virtual: the platform subclasses
  override them. Every operation records the platform calls it makes, in order, in the
  field `platformCalls`, and takes the values those calls return as arguments
  (`platformTimerId` for `InternalCreateTimer`, `destroyed` for `InternalDestroyTimer`),
  so that a statement quantified over these arguments covers every platform.
-/

/-- Modelled from the spec: the enumeration with the enumerators `OneShotTimer` and
`RepeatingTimer` is declared in `vtkRenderWindowInteractor.h`, which is not among the
sources; the spec's data model gives a record the kind `OneShot|Repeating`. -/
inductive TimerType where
  | OneShotTimer
  | RepeatingTimer
  deriving DecidableEq, Repr

/-- Modelled from the spec: the macro `VTKI_TIMER_FIRST` is defined in
`vtkRenderWindowInteractor.h`, which is not among the sources; it names the spec's "first
kind of request". The source only compares a request with it, so the value chosen here
plays no part in what is proved. -/
def VTKI_TIMER_FIRST : Int := 0

/-- The record `vtkTimerStruct`: platform timer id, timer type and duration. -/
structure vtkTimerStruct where
  Id : Int
  Type_ : TimerType
  Duration : Nat
  deriving DecidableEq, Repr

/-- The class `vtkTimerIdMap`, a `vtkstd::map<int,vtkTimerStruct>`: its nodes in iteration
order. -/
abbrev vtkTimerIdMap := List (Int × vtkTimerStruct)

/-- The keys of a map ascend strictly: the shape of every `vtkstd::map`. -/
def mapWF (m : vtkTimerIdMap) : Prop :=
  List.Pairwise (fun a b => a < b) (m.map Prod.fst)

/-- The call `TimerMap->find(timerId)`: `none` stands for `TimerMap->end()`. -/
def mapFind : vtkTimerIdMap → Int → Option vtkTimerStruct
  | [], _ => none
  | (k, v) :: rest, timerId => if k = timerId then some v else mapFind rest timerId

/-- The statement `(*TimerMap)[timerId] = v`: the node of `timerId` is overwritten, or a
new node is inserted at its place in key order. -/
def mapAssign : vtkTimerIdMap → Int → vtkTimerStruct → vtkTimerIdMap
  | [], timerId, v => [(timerId, v)]
  | (k, w) :: rest, timerId, v =>
    if timerId < k then (timerId, v) :: (k, w) :: rest
    else if timerId = k then (timerId, v) :: rest
    else (k, w) :: mapAssign rest timerId v

/-- The call `TimerMap->erase(iter)` for `iter = TimerMap->find(timerId)`: a map has one
node for each key, and that node is removed. -/
def mapErase : vtkTimerIdMap → Int → vtkTimerIdMap
  | [], _ => []
  | (k, v) :: rest, timerId =>
    if k = timerId then mapErase rest timerId else (k, v) :: mapErase rest timerId

/-- The statement `(*iter).second.Id = platformTimerId` for `iter = TimerMap->find(timerId)`:
the node found for `timerId` gets a new platform id, in place. -/
def mapSetId : vtkTimerIdMap → Int → Int → vtkTimerIdMap
  | [], _, _ => []
  | (k, v) :: rest, timerId, platformTimerId =>
    if k = timerId then (k, { v with Id := platformTimerId }) :: rest
    else (k, v) :: mapSetId rest timerId platformTimerId

/-- A call the interactor makes on the platform-specific timer methods. -/
inductive PlatformCall where
  | InternalCreateTimer (timerId : Int) (timerType : TimerType) (duration : Nat)
  | InternalDestroyTimer (platformTimerId : Int)
  deriving DecidableEq, Repr

/-- The timer state of an interactor: its `TimerMap`, the file-level static `vtkTimerId`,
its `TimerDuration`, and the platform calls made so far (oldest first). -/
structure Interactor where
  TimerMap : vtkTimerIdMap
  vtkTimerId : Int
  TimerDuration : Nat
  platformCalls : List PlatformCall
  deriving DecidableEq, Repr

/-- The state after the constructor: an empty `TimerMap`, `TimerDuration` 10, and the
static `vtkTimerId` at its initial value 1. -/
def initialInteractor : Interactor :=
  { TimerMap := [], vtkTimerId := 1, TimerDuration := 10, platformCalls := [] }

/-- Record one platform call. -/
def Interactor.call (s : Interactor) (c : PlatformCall) : Interactor :=
  { s with platformCalls := s.platformCalls ++ [c] }

/-- The base class's `InternalCreateTimer`: a stub that returns 0 ("no timer"). -/
def InternalCreateTimer (_timerId : Int) (_timerType : TimerType) (_duration : Nat) : Int := 0

/-- The base class's `InternalDestroyTimer`: a stub that returns 0. -/
def InternalDestroyTimer (_platformTimerId : Int) : Int := 0

/-- Old-style `CreateTimer(int timerType)`; `platformTimerId` is what the platform's
`InternalCreateTimer` returns. -/
def CreateTimer (s : Interactor) (timerType : Int) (platformTimerId : Int) :
    Int × Interactor :=
  if timerType = VTKI_TIMER_FIRST then
    let duration := s.TimerDuration
    let timerId := s.vtkTimerId
    let s1 := s.call (.InternalCreateTimer timerId .RepeatingTimer duration)
    if 0 = platformTimerId then (0, s1)
    else
      (timerId,
        { s1 with
          TimerMap := mapAssign s1.TimerMap timerId ⟨platformTimerId, .RepeatingTimer, duration⟩ })
  else (1, s)

/-- Old-style `DestroyTimer()`; `destroyed` is what the platform's `InternalDestroyTimer`
returns (the source discards it). -/
def DestroyTimer_void (s : Interactor) (_destroyed : Int) : Int × Interactor :=
  let timerId := s.vtkTimerId
  match mapFind s.TimerMap timerId with
  | some rec =>
    let s1 := s.call (.InternalDestroyTimer rec.Id)
    (1, { s1 with TimerMap := mapErase s1.TimerMap timerId })
  | none => (0, s)

/-- New-style `CreateRepeatingTimer(unsigned long duration)`; `platformTimerId` is what the
platform's `InternalCreateTimer` returns. -/
def CreateRepeatingTimer (s : Interactor) (duration : Nat) (platformTimerId : Int) :
    Int × Interactor :=
  let s0 := { s with vtkTimerId := s.vtkTimerId + 1 }
  let timerId := s0.vtkTimerId
  let s1 := s0.call (.InternalCreateTimer timerId .RepeatingTimer duration)
  if 0 = platformTimerId then (0, s1)
  else
    (timerId,
      { s1 with
        TimerMap := mapAssign s1.TimerMap timerId ⟨platformTimerId, .RepeatingTimer, duration⟩ })

/-- New-style `CreateOneShotTimer(unsigned long duration)`; `platformTimerId` is what the
platform's `InternalCreateTimer` returns. -/
def CreateOneShotTimer (s : Interactor) (duration : Nat) (platformTimerId : Int) :
    Int × Interactor :=
  let s0 := { s with vtkTimerId := s.vtkTimerId + 1 }
  let timerId := s0.vtkTimerId
  let s1 := s0.call (.InternalCreateTimer timerId .OneShotTimer duration)
  if 0 = platformTimerId then (0, s1)
  else
    (timerId,
      { s1 with
        TimerMap := mapAssign s1.TimerMap timerId ⟨platformTimerId, .OneShotTimer, duration⟩ })

/-- The lookup `IsOneShotTimer(int timerId)`. -/
def IsOneShotTimer (s : Interactor) (timerId : Int) : Int :=
  match mapFind s.TimerMap timerId with
  | some rec => if rec.Type_ = .OneShotTimer then 1 else 0
  | none => 0

/-- The lookup `GetTimerDuration(int timerId)`. -/
def GetTimerDuration (s : Interactor) (timerId : Int) : Nat :=
  match mapFind s.TimerMap timerId with
  | some rec => rec.Duration
  | none => 0

/-- New-style `ResetTimer(int timerId)`; `destroyed` and `platformTimerId` are what the
platform's `InternalDestroyTimer` and `InternalCreateTimer` return. -/
def ResetTimer (s : Interactor) (timerId : Int) (_destroyed : Int) (platformTimerId : Int) :
    Int × Interactor :=
  match mapFind s.TimerMap timerId with
  | some rec =>
    let s1 := s.call (.InternalDestroyTimer rec.Id)
    let s2 := s1.call (.InternalCreateTimer timerId rec.Type_ rec.Duration)
    if platformTimerId ≠ 0 then
      (1, { s2 with TimerMap := mapSetId s2.TimerMap timerId platformTimerId })
    else
      (0, { s2 with TimerMap := mapErase s2.TimerMap timerId })
  | none => (0, s)

/-- New-style `DestroyTimer(int timerId)`; `destroyed` is what the platform's
`InternalDestroyTimer` returns (the source discards it). -/
def DestroyTimer (s : Interactor) (timerId : Int) (_destroyed : Int) : Int × Interactor :=
  match mapFind s.TimerMap timerId with
  | some rec =>
    let s1 := s.call (.InternalDestroyTimer rec.Id)
    (1, { s1 with TimerMap := mapErase s1.TimerMap timerId })
  | none => (0, s)

/-- The loop of `GetVTKTimerId`: the key of the first node, in iteration order, whose
platform id is `platformTimerId`; 0 when the iteration reaches the end. -/
def scanTimerMap : vtkTimerIdMap → Int → Int
  | [], _ => 0
  | (k, v) :: rest, platformTimerId =>
    if v.Id = platformTimerId then k else scanTimerMap rest platformTimerId

/-- The translation `GetVTKTimerId(int platformTimerId)`. -/
def GetVTKTimerId (s : Interactor) (platformTimerId : Int) : Int :=
  scanTimerMap s.TimerMap platformTimerId

/-- The accessor `GetCurrentTimerId()`. -/
def GetCurrentTimerId (s : Interactor) : Int := s.vtkTimerId

/-- One state-changing timer call on the interactor, with the values the platform returns
during it. `otherInteractorCreate` is a `CreateRepeatingTimer` or `CreateOneShotTimer` on
another interactor of the process: `vtkTimerId` is a static shared by all of them, and the
call increments it without touching this interactor's map. -/
inductive TimerOp where
  | createTimer (timerType : Int) (platformTimerId : Int)
  | destroyTimer_void (destroyed : Int)
  | createRepeatingTimer (duration : Nat) (platformTimerId : Int)
  | createOneShotTimer (duration : Nat) (platformTimerId : Int)
  | resetTimer (timerId : Int) (destroyed : Int) (platformTimerId : Int)
  | destroyTimer (timerId : Int) (destroyed : Int)
  | otherInteractorCreate
  deriving DecidableEq, Repr

/-- Run one call: its return value and the state after it. -/
def TimerOp.apply (s : Interactor) : TimerOp → Int × Interactor
  | .createTimer timerType platformTimerId => CreateTimer s timerType platformTimerId
  | .destroyTimer_void destroyed => DestroyTimer_void s destroyed
  | .createRepeatingTimer duration platformTimerId =>
    CreateRepeatingTimer s duration platformTimerId
  | .createOneShotTimer duration platformTimerId =>
    CreateOneShotTimer s duration platformTimerId
  | .resetTimer timerId destroyed platformTimerId =>
    ResetTimer s timerId destroyed platformTimerId
  | .destroyTimer timerId destroyed => DestroyTimer s timerId destroyed
  | .otherInteractorCreate => (0, { s with vtkTimerId := s.vtkTimerId + 1 })

/-- Whether a call is one of the three create calls of this interactor. -/
def TimerOp.isCreate : TimerOp → Bool
  | .createTimer _ _ => true
  | .createRepeatingTimer _ _ => true
  | .createOneShotTimer _ _ => true
  | _ => false

/-- The values the platform's `InternalCreateTimer` returns during a call made in state
`s`: one value when the call reaches `InternalCreateTimer`, none otherwise. -/
def TimerOp.issued (s : Interactor) : TimerOp → List Int
  | .createTimer timerType platformTimerId =>
    if timerType = VTKI_TIMER_FIRST then [platformTimerId] else []
  | .createRepeatingTimer _ platformTimerId => [platformTimerId]
  | .createOneShotTimer _ platformTimerId => [platformTimerId]
  | .resetTimer timerId _ platformTimerId =>
    if (mapFind s.TimerMap timerId).isSome then [platformTimerId] else []
  | _ => []

/-- A run in progress: the current state, the values the create calls of this interactor
have returned so far, and the values the platform's `InternalCreateTimer` has returned so
far (oldest first). -/
structure Run where
  state : Interactor
  created : List Int
  issued : List Int
  deriving DecidableEq, Repr

/-- Extend a run by one call. -/
def Run.step (r : Run) (op : TimerOp) : Run :=
  { state := (op.apply r.state).2
    created := if op.isCreate then r.created ++ [(op.apply r.state).1] else r.created
    issued := r.issued ++ op.issued r.state }

/-- The run of a sequence of calls from the state after the constructor. -/
def runOps (ops : List TimerOp) : Run :=
  ops.foldl Run.step { state := initialInteractor, created := [], issued := [] }

/-- A sample sequence of calls: a one-shot timer is created (id 2), the old-style
`CreateTimer` then stores its repeating timer under the same id 2, and a
`CreateRepeatingTimer` fails on the platform (id 3 is consumed, 0 is returned). -/
def sampleCalls : List TimerOp :=
  [.createOneShotTimer 40 7, .createTimer VTKI_TIMER_FIRST 8, .createRepeatingTimer 5 0]

/-- A sample sequence of calls: three timers of mixed kinds alive at once, with ids 2, 3, 4
and platform ids 7, 9, 8. -/
def mixedTimers : List TimerOp :=
  [.createOneShotTimer 40 7, .createRepeatingTimer 5 9, .createOneShotTimer 3 8]

/-- A state is reachable when some sequence of calls leads to it from the state after the
constructor. -/
def Reachable (s : Interactor) : Prop := ∃ ops, (runOps ops).state = s

/-- What every run keeps: the counter is at least 1; the keys of the map ascend; every
node of the map has a key that a create call returned, between 1 and the counter, and a
non-zero platform id that the platform's `InternalCreateTimer` returned; and no create
call returned more than the counter. -/
def Run.Inv (r : Run) : Prop :=
  1 ≤ r.state.vtkTimerId
  ∧ mapWF r.state.TimerMap
  ∧ (∀ x ∈ r.state.TimerMap,
      x.1 ∈ r.created ∧ 1 ≤ x.1 ∧ x.1 ≤ r.state.vtkTimerId
        ∧ x.2.Id ∈ r.issued ∧ x.2.Id ≠ 0)
  ∧ (∀ j ∈ r.created, j ≤ r.state.vtkTimerId)

/-- The records of a map hold distinct platform ids: two nodes with the same platform id
are the same node. -/
abbrev distinctHandles (m : vtkTimerIdMap) : Prop :=
  ∀ x ∈ m, ∀ y ∈ m, x.2.Id = y.2.Id → x.1 = y.1

/-! ## The poked renderer -/

/-- The two methods of `vtkRenderer` that `FindPokedRenderer` calls, as functions of the
renderer: `aren->IsInViewport(x,y)` and `aren->GetInteractive()`, each read as a truth
value. The class `vtkRenderer` is not among the sources, so the renderers are the values of
any type `R`. -/
structure RendererMethods (R : Type) where
  IsInViewport : R → Int → Int → Bool
  GetInteractive : R → Bool

/-- The test `aren->IsInViewport(x,y) && aren->GetInteractive()`. -/
def RendererMethods.pokes {R : Type} (V : RendererMethods R) (x y : Int) (aren : R) : Bool :=
  V.IsInViewport aren x y && V.GetInteractive aren

/-- The three renderer pointers of `FindPokedRenderer`; `none` is `NULL`. -/
structure PokeVars (R : Type) where
  currentRenderer : Option R
  interactiveren : Option R
  viewportren : Option R

/-- The body of the loop of `FindPokedRenderer` for the renderer `aren`. -/
def pokeBody {R : Type} (V : RendererMethods R) (x y : Int) (st : PokeVars R) (aren : R) :
    PokeVars R :=
  let currentRenderer := if V.pokes x y aren then some aren else st.currentRenderer
  let interactiveren :=
    if st.interactiveren.isNone && V.GetInteractive aren then some aren
    else st.interactiveren
  let viewportren :=
    if st.viewportren.isNone && V.IsInViewport aren x y then some aren else st.viewportren
  { currentRenderer := currentRenderer, interactiveren := interactiveren,
    viewportren := viewportren }

/-- The loop `for (i = numRens-1; (i >= 0) && !currentRenderer; i--)` with `n = i + 1`:
the renderer read is `rc->GetItemAsObject(i)`. -/
def pokeLoop {R : Type} (V : RendererMethods R) (rc : List R) (x y : Int) :
    Nat → PokeVars R → PokeVars R
  | 0, st => st
  | i + 1, st =>
    if st.currentRenderer.isSome then st
    else
      match rc[i]? with
      | some aren => pokeLoop V rc x y i (pokeBody V x y st aren)
      | none => st

/-- Modelled from the spec: `vtkRendererCollection::GetFirstRenderer` is not among the
sources; the spec has "the first renderer in the collection" and "none only if the
collection is empty". -/
def GetFirstRenderer {R : Type} (rc : List R) : Option R := rc.head?

/-- The selection `FindPokedRenderer(int x, int y)` on the renderers `rc` of the render
window, in the order of the collection. -/
def FindPokedRenderer {R : Type} (V : RendererMethods R) (rc : List R) (x y : Int) :
    Option R :=
  let numRens := rc.length
  let st := pokeLoop V rc x y numRens
    { currentRenderer := none, interactiveren := none, viewportren := none }
  let c1 := if st.currentRenderer.isNone then st.interactiveren else st.currentRenderer
  let c2 := if c1.isNone then st.viewportren else c1
  if c2.isNone then GetFirstRenderer rc else c2

/-- The renderer `r` is the topmost of `rc` with the property `P`: it sits at an index of
the collection, has the property, and no renderer at a higher index has it. -/
def IsTopmost {R : Type} (P : R → Bool) (rc : List R) (r : R) : Prop :=
  ∃ i : Nat, rc[i]? = some r ∧ P r = true
    ∧ ∀ (j : Nat) (r2 : R), i < j → rc[j]? = some r2 → P r2 = false

/-- The pointer `o` is right for the indices from `k` up: it is the topmost renderer with
`P` and sits at an index from `k` up, or it is `NULL` and no index from `k` up has `P`. -/
def TopFrom {R : Type} (P : R → Bool) (rc : List R) (k : Nat) : Option R → Prop
  | some r => ∃ i : Nat, k ≤ i ∧ rc[i]? = some r ∧ P r = true
      ∧ ∀ (j : Nat) (r2 : R), i < j → rc[j]? = some r2 → P r2 = false
  | none => ∀ (j : Nat) (r2 : R), k ≤ j → rc[j]? = some r2 → P r2 = false

/-- A sample collection: three renderers named 0, 1, 2 (bottom to top). Renderer 0 is the
only interactive one; the viewports of 0 and 1 contain the points with `x < 100`, that of
2 contains no point. -/
def sampleRenderers : RendererMethods Nat :=
  { IsInViewport := fun r x _ => decide (r < 2) && decide (x < 100)
    GetInteractive := fun r => decide (r = 0) }

/-! ## The camera flights

The `double`s of `FlyTo` and `FlyToImage` are the elements of a field `K` (exact
arithmetic: rounding is not modelled), and the square root taken inside
`vtkMath::Normalize` is a function `sqrt : K → K` given to the flight. A flight is the list
of the calls it makes on the camera, the renderer and the render window, frame by frame;
the camera is read once, before the first frame. -/

/-- An array `double[3]`: a point or a vector. -/
structure Vec3 (K : Type) where
  x : K
  y : K
  z : K
  deriving DecidableEq, Repr

/-- What the flights read from `ren->GetActiveCamera()` before the first frame:
`GetFocalPoint` and `GetPosition`. -/
structure vtkCamera (K : Type) where
  FocalPoint : Vec3 K
  Position : Vec3 K
  deriving DecidableEq, Repr

/-- The members of the interactor that the flights and `Render` read: `NumberOfFlyFrames`,
`Dolly`, whether `RenderWindow` is not `NULL`, `Enabled` and `EnableRender`. -/
structure FlyInteractor (K : Type) where
  NumberOfFlyFrames : Int
  Dolly : K
  RenderWindow : Bool
  Enabled : Bool
  EnableRender : Bool
  deriving DecidableEq, Repr

/-- A call made during a flight: on the active camera (`SetFocalPoint`, `SetPosition`,
`Dolly`, `OrthogonalizeViewUp`), on the renderer (`ResetCameraClippingRange`), on the
render window (`RenderWindow->Render()`), or `InvokeEvent(vtkCommand::RenderEvent, NULL)`. -/
inductive FlightCall (K : Type) where
  | SetFocalPoint (p : Vec3 K)
  | SetPosition (p : Vec3 K)
  | Dolly (factor : K)
  | OrthogonalizeViewUp
  | ResetCameraClippingRange
  | RenderWindowRender
  | InvokeRenderEvent
  deriving DecidableEq, Repr

/-- Modelled from the spec: `vtkMath::Normalize` is not among the sources; the spec has
"normalize to unit length, capturing total distance" and, for the zero vector, "distance
is 0". The vector is divided by its norm when the norm is not 0 and left as it is
otherwise; the norm is returned. -/
def Normalize {K : Type} [Field K] [DecidableEq K] (sqrt : K → K) (v : Vec3 K) :
    K × Vec3 K :=
  let den := sqrt (v.x * v.x + v.y * v.y + v.z * v.z)
  if den ≠ 0 then (den, { x := v.x / den, y := v.y / den, z := v.z / den }) else (den, v)

/-- The method `Render()`: `RenderWindow->Render()` when there is a render window and the
interactor is enabled and may render, then the render event in every case. -/
def Render {K : Type} (I : FlyInteractor K) : List (FlightCall K) :=
  (if I.RenderWindow && I.Enabled && I.EnableRender then [FlightCall.RenderWindowRender]
    else [])
  ++ [FlightCall.InvokeRenderEvent]

/-- The inner loop `for (j=0; j<3; j++)` of a frame: the point with the coordinates
`start[j] + d[j]*i*delta`. -/
def flyStep {K : Type} [Field K] (start d : Vec3 K) (delta : K) (i : Int) : Vec3 K :=
  { x := start.x + d.x * (i : K) * delta
    y := start.y + d.y * (i : K) * delta
    z := start.z + d.z * (i : K) * delta }

/-- The body of the loop of `FlyTo` for the frame `i`. -/
def FlyTo_frame {K : Type} [Field K] (I : FlyInteractor K) (flyFrom d : Vec3 K) (delta : K)
    (i : Int) : List (FlightCall K) :=
  let focalPt : Vec3 K := flyStep flyFrom d delta i
  [FlightCall.SetFocalPoint focalPt,
    FlightCall.Dolly (I.Dolly / (I.NumberOfFlyFrames : K) + 1),
    FlightCall.OrthogonalizeViewUp,
    FlightCall.ResetCameraClippingRange]
  ++ Render I

/-- The start of `FlyTo`: `d[i] = flyTo[i] - flyFrom[i]`, then
`distance = vtkMath::Normalize(d)`; the pair of `distance` and the normalized `d`. -/
def FlyTo_direction {K : Type} [Field K] [DecidableEq K] (sqrt : K → K)
    (camera : vtkCamera K) (x y z : K) : K × Vec3 K :=
  let flyTo : Vec3 K := { x := x, y := y, z := z }
  let flyFrom := camera.FocalPoint
  let d : Vec3 K :=
    { x := flyTo.x - flyFrom.x, y := flyTo.y - flyFrom.y, z := flyTo.z - flyFrom.z }
  Normalize sqrt d

/-- The frames of `FlyTo(ren, x, y, z)`, in order: the loop
`for (i=1; i<=NumberOfFlyFrames; i++)`. -/
def FlyTo_frames {K : Type} [Field K] [DecidableEq K] (sqrt : K → K) (I : FlyInteractor K)
    (camera : vtkCamera K) (x y z : K) : List (List (FlightCall K)) :=
  let flyFrom := camera.FocalPoint
  let distance := (FlyTo_direction sqrt camera x y z).1
  let d := (FlyTo_direction sqrt camera x y z).2
  let delta := distance / (I.NumberOfFlyFrames : K)
  (List.range I.NumberOfFlyFrames.toNat).map
    (fun (k : Nat) => FlyTo_frame I flyFrom d delta ((k : Int) + 1))

/-- The flight `FlyTo(ren, x, y, z)`: all its calls, in order. -/
def FlyTo {K : Type} [Field K] [DecidableEq K] (sqrt : K → K) (I : FlyInteractor K)
    (camera : vtkCamera K) (x y z : K) : List (FlightCall K) :=
  (FlyTo_frames sqrt I camera x y z).flatten

/-- The body of the loop of `FlyToImage` for the frame `i`. -/
def FlyToImage_frame {K : Type} [Field K] (I : FlyInteractor K)
    (flyFrom positionFrom d : Vec3 K) (delta : K) (i : Int) : List (FlightCall K) :=
  let focalPt : Vec3 K := flyStep flyFrom d delta i
  let position : Vec3 K := flyStep positionFrom d delta i
  [FlightCall.SetFocalPoint focalPt,
    FlightCall.SetPosition position,
    FlightCall.Dolly (I.Dolly / (I.NumberOfFlyFrames : K) + 1),
    FlightCall.ResetCameraClippingRange]
  ++ Render I

/-- The start of `FlyToImage`: `flyTo[2] = flyFrom[2]`, `d[i] = flyTo[i] - flyFrom[i]` for
`i < 2`, `d[2] = 0.0`, then `distance = vtkMath::Normalize(d)`; the pair of `distance` and
the normalized `d`. -/
def FlyToImage_direction {K : Type} [Field K] [DecidableEq K] (sqrt : K → K)
    (camera : vtkCamera K) (x y : K) : K × Vec3 K :=
  let flyFrom := camera.FocalPoint
  let flyTo : Vec3 K := { x := x, y := y, z := flyFrom.z }
  let d : Vec3 K := { x := flyTo.x - flyFrom.x, y := flyTo.y - flyFrom.y, z := 0 }
  Normalize sqrt d

/-- The frames of `FlyToImage(ren, x, y)`, in order. -/
def FlyToImage_frames {K : Type} [Field K] [DecidableEq K] (sqrt : K → K)
    (I : FlyInteractor K) (camera : vtkCamera K) (x y : K) : List (List (FlightCall K)) :=
  let flyFrom := camera.FocalPoint
  let positionFrom := camera.Position
  let distance := (FlyToImage_direction sqrt camera x y).1
  let d := (FlyToImage_direction sqrt camera x y).2
  let delta := distance / (I.NumberOfFlyFrames : K)
  (List.range I.NumberOfFlyFrames.toNat).map
    (fun (k : Nat) => FlyToImage_frame I flyFrom positionFrom d delta ((k : Int) + 1))

/-- The flight `FlyToImage(ren, x, y)`: all its calls, in order. -/
def FlyToImage {K : Type} [Field K] [DecidableEq K] (sqrt : K → K) (I : FlyInteractor K)
    (camera : vtkCamera K) (x y : K) : List (FlightCall K) :=
  (FlyToImage_frames sqrt I camera x y).flatten

/-- Whether a call is the render event. -/
def FlightCall.isRenderEvent {K : Type} : FlightCall K → Bool
  | .InvokeRenderEvent => true
  | _ => false

/-- Whether a call is `RenderWindow->Render()`. -/
def FlightCall.isRenderWindowRender {K : Type} : FlightCall K → Bool
  | .RenderWindowRender => true
  | _ => false

/-- The focal points set by a list of calls, in order. -/
def focalPointsSet {K : Type} (calls : List (FlightCall K)) : List (Vec3 K) :=
  calls.filterMap (fun c => match c with
    | .SetFocalPoint p => some p
    | _ => none)

/-- The camera positions set by a list of calls, in order. -/
def positionsSet {K : Type} (calls : List (FlightCall K)) : List (Vec3 K) :=
  calls.filterMap (fun c => match c with
    | .SetPosition p => some p
    | _ => none)

/-- The factors of the dolly calls of a list of calls, in order. -/
def dollyFactors {K : Type} (calls : List (FlightCall K)) : List K :=
  calls.filterMap (fun c => match c with
    | .Dolly f => some f
    | _ => none)

/-- The squared length of a vector. -/
def Vec3.normSq {K : Type} [Field K] (v : Vec3 K) : K := v.x * v.x + v.y * v.y + v.z * v.z

/-- The vector from `a` to `b`. -/
def Vec3.to {K : Type} [Field K] (a b : Vec3 K) : Vec3 K :=
  { x := b.x - a.x, y := b.y - a.y, z := b.z - a.z }

/-- The linear interpolation `a + c*(b - a)` between two points. -/
def Vec3.lerp {K : Type} [Field K] (a b : Vec3 K) (c : K) : Vec3 K :=
  { x := a.x + c * (b.x - a.x), y := a.y + c * (b.y - a.y), z := a.z + c * (b.z - a.z) }

/-- A square root on the rationals that is exact on the squares of the natural numbers:
the largest `k` with `k * k` at most the numerator, over the same for the denominator. -/
def sqrtRat (a : ℚ) : ℚ :=
  (((List.range (a.num.toNat + 1)).foldl (fun r k => if k * k ≤ a.num.toNat then k else r) 0
      : Nat) : ℚ)
    / (((List.range (a.den + 1)).foldl (fun r k => if k * k ≤ a.den then k else r) 0
      : Nat) : ℚ)

/-- A sample interactor: five frames, dolly 1/2, rendering enabled. -/
def sampleFlyInteractor : FlyInteractor ℚ :=
  { NumberOfFlyFrames := 5, Dolly := 1 / 2, RenderWindow := true, Enabled := true,
    EnableRender := true }

/-- A sample camera: focal point (1, 2, 3), position (1, 2, 13). -/
def sampleCamera : vtkCamera ℚ :=
  { FocalPoint := { x := 1, y := 2, z := 3 }, Position := { x := 1, y := 2, z := 13 } }

/-! ## The map operations -/

theorem mapFind_mapAssign (m : vtkTimerIdMap) (k j : Int) (v : vtkTimerStruct) :
    mapFind (mapAssign m k v) j = if j = k then some v else mapFind m j := by
  induction m with
  | nil =>
    by_cases h : j = k
    · simp [mapAssign, mapFind, h]
    · have h2 : ¬ k = j := fun e => h e.symm
      simp [mapAssign, mapFind, h, h2]
  | cons a rest ih =>
    obtain ⟨k2, w⟩ := a
    by_cases h1 : k < k2
    · by_cases h : j = k
      · simp [mapAssign, mapFind, h1, h]
      · have h2 : ¬ k = j := fun e => h e.symm
        simp [mapAssign, mapFind, h1, h, h2]
    · by_cases h3 : k = k2
      · subst h3
        by_cases h : j = k
        · simp [mapAssign, mapFind, h]
        · have h2 : ¬ k = j := fun e => h e.symm
          simp [mapAssign, mapFind, h, h2]
      · by_cases h : j = k
        · subst h
          have h4 : ¬ k2 = j := fun e => h3 e.symm
          simp [mapAssign, mapFind, h1, h3, h4, ih]
        · simp [mapAssign, mapFind, h1, h3, ih, h]

theorem mapFind_mapErase (m : vtkTimerIdMap) (k j : Int) :
    mapFind (mapErase m k) j = if j = k then none else mapFind m j := by
  induction m with
  | nil => simp [mapErase, mapFind]
  | cons a rest ih =>
    obtain ⟨k2, w⟩ := a
    by_cases h3 : k2 = k
    · subst h3
      by_cases h : j = k2
      · subst h
        simp [mapErase, mapFind, ih]
      · have h2 : ¬ k2 = j := fun e => h e.symm
        simp [mapErase, mapFind, h, h2, ih]
    · by_cases h : j = k
      · subst h
        simp [mapErase, mapFind, h3, ih]
      · simp [mapErase, mapFind, h3, ih, h]

theorem mapFind_mapSetId (m : vtkTimerIdMap) (k j p : Int) :
    mapFind (mapSetId m k p) j
      = if j = k then (mapFind m k).map (fun r => { r with Id := p }) else mapFind m j := by
  induction m with
  | nil => simp [mapSetId, mapFind]
  | cons a rest ih =>
    obtain ⟨k2, w⟩ := a
    by_cases h3 : k2 = k
    · subst h3
      by_cases h : j = k2
      · simp [mapSetId, mapFind, h]
      · have h2 : ¬ k2 = j := fun e => h e.symm
        simp [mapSetId, mapFind, h, h2]
    · by_cases h : j = k
      · subst h
        simp [mapSetId, mapFind, h3, ih]
      · simp [mapSetId, mapFind, h3, ih, h]

/-! ## Single calls -/

/-- C2: in every state and for every duration `d` (so for every `d > 0`), when the platform
returns a non-zero handle, the id returned by `CreateRepeatingTimer(d)` has
`GetTimerDuration` `d` and `IsOneShotTimer` 0 (false), and the id returned by
`CreateOneShotTimer(d)` has `GetTimerDuration` `d` and `IsOneShotTimer` 1 (true). -/
theorem create_then_lookup (s : Interactor) (d : Nat) (platformTimerId : Int)
    (hp : platformTimerId ≠ 0) :
    GetTimerDuration (CreateRepeatingTimer s d platformTimerId).2
        (CreateRepeatingTimer s d platformTimerId).1 = d
    ∧ IsOneShotTimer (CreateRepeatingTimer s d platformTimerId).2
        (CreateRepeatingTimer s d platformTimerId).1 = 0
    ∧ GetTimerDuration (CreateOneShotTimer s d platformTimerId).2
        (CreateOneShotTimer s d platformTimerId).1 = d
    ∧ IsOneShotTimer (CreateOneShotTimer s d platformTimerId).2
        (CreateOneShotTimer s d platformTimerId).1 = 1 := by
  have h0 : ¬ 0 = platformTimerId := fun e => hp e.symm
  simp [CreateRepeatingTimer, CreateOneShotTimer, GetTimerDuration, IsOneShotTimer,
    Interactor.call, mapFind_mapAssign, h0]

theorem create_then_lookup_witness :
    GetTimerDuration (CreateRepeatingTimer initialInteractor 40 7).2
        (CreateRepeatingTimer initialInteractor 40 7).1 = 40
    ∧ IsOneShotTimer (CreateRepeatingTimer initialInteractor 40 7).2
        (CreateRepeatingTimer initialInteractor 40 7).1 = 0
    ∧ GetTimerDuration (CreateOneShotTimer initialInteractor 40 7).2
        (CreateOneShotTimer initialInteractor 40 7).1 = 40
    ∧ IsOneShotTimer (CreateOneShotTimer initialInteractor 40 7).2
        (CreateOneShotTimer initialInteractor 40 7).1 = 1 :=
  create_then_lookup initialInteractor 40 7 (by decide)

/-- C3: in every state and for every duration, when the platform fails to create the native
timer (handle 0, which is also what the base class's stub `InternalCreateTimer` returns),
`CreateRepeatingTimer` and `CreateOneShotTimer` return 0 and the map of records after the
call is the map before it. -/
theorem create_failure_stores_nothing (s : Interactor) (d : Nat) :
    (CreateRepeatingTimer s d 0).1 = 0
    ∧ (CreateRepeatingTimer s d 0).2.TimerMap = s.TimerMap
    ∧ (CreateOneShotTimer s d 0).1 = 0
    ∧ (CreateOneShotTimer s d 0).2.TimerMap = s.TimerMap
    ∧ (CreateRepeatingTimer s d
        (InternalCreateTimer (s.vtkTimerId + 1) .RepeatingTimer d)).1 = 0
    ∧ (CreateRepeatingTimer s d
        (InternalCreateTimer (s.vtkTimerId + 1) .RepeatingTimer d)).2.TimerMap = s.TimerMap
    ∧ (CreateOneShotTimer s d
        (InternalCreateTimer (s.vtkTimerId + 1) .OneShotTimer d)).1 = 0
    ∧ (CreateOneShotTimer s d
        (InternalCreateTimer (s.vtkTimerId + 1) .OneShotTimer d)).2.TimerMap = s.TimerMap := by
  simp [CreateRepeatingTimer, CreateOneShotTimer, InternalCreateTimer, Interactor.call]

/-- C4: in every state and for every id that has a record, `DestroyTimer(id)` returns 1
(true), and `DestroyTimer(id)` called again right after returns 0 (false), whatever values
the platform's `InternalDestroyTimer` returns in the two calls. -/
theorem destroy_twice (s : Interactor) (timerId : Int) (rec : vtkTimerStruct)
    (destroyed1 destroyed2 : Int) (h : mapFind s.TimerMap timerId = some rec) :
    (DestroyTimer s timerId destroyed1).1 = 1
    ∧ (DestroyTimer (DestroyTimer s timerId destroyed1).2 timerId destroyed2).1 = 0 := by
  simp [DestroyTimer, h, Interactor.call, mapFind_mapErase]

theorem destroy_twice_witness :
    (DestroyTimer (CreateOneShotTimer initialInteractor 40 7).2 2 (InternalDestroyTimer 7)).1
        = 1
    ∧ (DestroyTimer
        (DestroyTimer (CreateOneShotTimer initialInteractor 40 7).2 2
          (InternalDestroyTimer 7)).2 2 1).1 = 0 :=
  destroy_twice (CreateOneShotTimer initialInteractor 40 7).2 2 ⟨7, .OneShotTimer, 40⟩
    (InternalDestroyTimer 7) 1 (by decide)

/-- C5: in every state and for every id that has a record, when the platform returns a
non-zero handle for the re-created timer, `ResetTimer(id)` returns 1 (true); its platform
calls are `InternalDestroyTimer` on the record's old handle followed by
`InternalCreateTimer` with this id and the record's own type and duration; the record then
holds the new handle with the type and duration it had; and `IsOneShotTimer(id)` and
`GetTimerDuration(id)` are what they were before the reset. -/
theorem reset_success (s : Interactor) (timerId : Int) (rec : vtkTimerStruct)
    (destroyed platformTimerId : Int) (h : mapFind s.TimerMap timerId = some rec)
    (hp : platformTimerId ≠ 0) :
    (ResetTimer s timerId destroyed platformTimerId).1 = 1
    ∧ (ResetTimer s timerId destroyed platformTimerId).2.platformCalls
        = s.platformCalls ++ [PlatformCall.InternalDestroyTimer rec.Id,
            PlatformCall.InternalCreateTimer timerId rec.Type_ rec.Duration]
    ∧ mapFind (ResetTimer s timerId destroyed platformTimerId).2.TimerMap timerId
        = some { Id := platformTimerId, Type_ := rec.Type_, Duration := rec.Duration }
    ∧ IsOneShotTimer (ResetTimer s timerId destroyed platformTimerId).2 timerId
        = IsOneShotTimer s timerId
    ∧ GetTimerDuration (ResetTimer s timerId destroyed platformTimerId).2 timerId
        = GetTimerDuration s timerId := by
  simp [ResetTimer, h, hp, Interactor.call, mapFind_mapSetId, IsOneShotTimer,
    GetTimerDuration]

theorem reset_success_witness :
    (ResetTimer (CreateOneShotTimer initialInteractor 40 7).2 2 0 9).1 = 1
    ∧ (ResetTimer (CreateOneShotTimer initialInteractor 40 7).2 2 0 9).2.platformCalls
        = (CreateOneShotTimer initialInteractor 40 7).2.platformCalls
          ++ [PlatformCall.InternalDestroyTimer 7,
            PlatformCall.InternalCreateTimer 2 .OneShotTimer 40]
    ∧ mapFind (ResetTimer (CreateOneShotTimer initialInteractor 40 7).2 2 0 9).2.TimerMap 2
        = some { Id := 9, Type_ := .OneShotTimer, Duration := 40 }
    ∧ IsOneShotTimer (ResetTimer (CreateOneShotTimer initialInteractor 40 7).2 2 0 9).2 2
        = IsOneShotTimer (CreateOneShotTimer initialInteractor 40 7).2 2
    ∧ GetTimerDuration (ResetTimer (CreateOneShotTimer initialInteractor 40 7).2 2 0 9).2 2
        = GetTimerDuration (CreateOneShotTimer initialInteractor 40 7).2 2 :=
  reset_success (CreateOneShotTimer initialInteractor 40 7).2 2 ⟨7, .OneShotTimer, 40⟩ 0 9
    (by decide) (by decide)

/-- C6: in every state and for every id that has a record, when the platform returns
handle 0 for the re-created timer, `ResetTimer(id)` returns 0 (false) and the id has no
record afterwards: `IsOneShotTimer(id)` is 0, `GetTimerDuration(id)` is 0, and
`DestroyTimer(id)` and a further `ResetTimer(id)` return 0, whatever the platform returns
in them. -/
theorem reset_failure (s : Interactor) (timerId : Int) (rec : vtkTimerStruct)
    (destroyed : Int) (h : mapFind s.TimerMap timerId = some rec) :
    (ResetTimer s timerId destroyed 0).1 = 0
    ∧ mapFind (ResetTimer s timerId destroyed 0).2.TimerMap timerId = none
    ∧ IsOneShotTimer (ResetTimer s timerId destroyed 0).2 timerId = 0
    ∧ GetTimerDuration (ResetTimer s timerId destroyed 0).2 timerId = 0
    ∧ (∀ destroyed2, (DestroyTimer (ResetTimer s timerId destroyed 0).2 timerId destroyed2).1 = 0)
    ∧ (∀ destroyed2 platformTimerId,
        (ResetTimer (ResetTimer s timerId destroyed 0).2 timerId destroyed2 platformTimerId).1
          = 0) := by
  simp [ResetTimer, DestroyTimer, h, Interactor.call, mapFind_mapErase, IsOneShotTimer,
    GetTimerDuration]

theorem reset_failure_witness :
    (ResetTimer (CreateOneShotTimer initialInteractor 40 7).2 2 0 0).1 = 0
    ∧ mapFind (ResetTimer (CreateOneShotTimer initialInteractor 40 7).2 2 0 0).2.TimerMap 2
        = none
    ∧ IsOneShotTimer (ResetTimer (CreateOneShotTimer initialInteractor 40 7).2 2 0 0).2 2 = 0
    ∧ GetTimerDuration (ResetTimer (CreateOneShotTimer initialInteractor 40 7).2 2 0 0).2 2 = 0
    ∧ (∀ destroyed2,
        (DestroyTimer (ResetTimer (CreateOneShotTimer initialInteractor 40 7).2 2 0 0).2 2
          destroyed2).1 = 0)
    ∧ (∀ destroyed2 platformTimerId,
        (ResetTimer (ResetTimer (CreateOneShotTimer initialInteractor 40 7).2 2 0 0).2 2
          destroyed2 platformTimerId).1 = 0) :=
  reset_failure (CreateOneShotTimer initialInteractor 40 7).2 2 ⟨7, .OneShotTimer, 40⟩ 0
    (by decide)

/-! ## Nodes of a map and the ascending-key shape -/

theorem mem_of_mapFind (m : vtkTimerIdMap) (k : Int) (v : vtkTimerStruct)
    (h : mapFind m k = some v) : (k, v) ∈ m := by
  induction m with
  | nil => simp [mapFind] at h
  | cons a rest ih =>
    obtain ⟨k2, w⟩ := a
    by_cases h1 : k2 = k
    · simp [mapFind, h1] at h
      simp [h1, h]
    · simp [mapFind, h1] at h
      exact List.mem_cons_of_mem _ (ih h)

theorem mapFind_of_mem (m : vtkTimerIdMap) (k : Int) (v : vtkTimerStruct)
    (hwf : mapWF m) (h : (k, v) ∈ m) : mapFind m k = some v := by
  induction m with
  | nil => simp at h
  | cons a rest ih =>
    obtain ⟨k2, w⟩ := a
    unfold mapWF at hwf ih
    simp only [List.map_cons, List.pairwise_cons] at hwf
    rcases List.mem_cons.mp h with e | e
    · injection e with e1 e2
      simp [mapFind, e1, e2]
    · have hk : k ∈ rest.map Prod.fst := List.mem_map.mpr ⟨(k, v), e, rfl⟩
      have hlt : k2 < k := hwf.1 k hk
      have hne : ¬ k2 = k := ne_of_lt hlt
      simp [mapFind, hne, ih hwf.2 e]

theorem mem_mapAssign (m : vtkTimerIdMap) (k : Int) (v : vtkTimerStruct)
    (x : Int × vtkTimerStruct) (h : x ∈ mapAssign m k v) : x = (k, v) ∨ x ∈ m := by
  induction m with
  | nil => simpa [mapAssign] using h
  | cons a rest ih =>
    obtain ⟨k2, w⟩ := a
    by_cases h1 : k < k2
    · simp [mapAssign, h1] at h
      rcases h with h | h | h
      · exact Or.inl h
      · exact Or.inr (by simp [h])
      · exact Or.inr (List.mem_cons_of_mem _ h)
    · by_cases h3 : k = k2
      · simp [mapAssign, h3] at h
        rcases h with h | h
        · exact Or.inl (by simp [h, h3])
        · exact Or.inr (List.mem_cons_of_mem _ h)
      · simp [mapAssign, h1, h3] at h
        rcases h with h | h
        · exact Or.inr (by simp [h])
        · rcases ih h with e | e
          · exact Or.inl e
          · exact Or.inr (List.mem_cons_of_mem _ e)

theorem mem_mapErase (m : vtkTimerIdMap) (k : Int) (x : Int × vtkTimerStruct)
    (h : x ∈ mapErase m k) : x ∈ m := by
  induction m with
  | nil => simp [mapErase] at h
  | cons a rest ih =>
    obtain ⟨k2, w⟩ := a
    by_cases h1 : k2 = k
    · simp [mapErase, h1] at h
      exact List.mem_cons_of_mem _ (ih h)
    · simp [mapErase, h1] at h
      rcases h with h | h
      · simp [h]
      · exact List.mem_cons_of_mem _ (ih h)

theorem mem_mapSetId (m : vtkTimerIdMap) (k p : Int) (x : Int × vtkTimerStruct)
    (h : x ∈ mapSetId m k p) :
    x ∈ m ∨ ∃ v, (k, v) ∈ m ∧ x = (k, { v with Id := p }) := by
  induction m with
  | nil => simp [mapSetId] at h
  | cons a rest ih =>
    obtain ⟨k2, w⟩ := a
    by_cases h1 : k2 = k
    · simp [mapSetId, h1] at h
      rcases h with h | h
      · exact Or.inr ⟨w, by simp [h1], h⟩
      · exact Or.inl (List.mem_cons_of_mem _ h)
    · simp [mapSetId, h1] at h
      rcases h with h | h
      · exact Or.inl (by simp [h])
      · rcases ih h with e | ⟨v, e1, e2⟩
        · exact Or.inl (List.mem_cons_of_mem _ e)
        · exact Or.inr ⟨v, List.mem_cons_of_mem _ e1, e2⟩

theorem mapWF_mapAssign (m : vtkTimerIdMap) (k : Int) (v : vtkTimerStruct)
    (hwf : mapWF m) : mapWF (mapAssign m k v) := by
  induction m with
  | nil => simp [mapAssign, mapWF]
  | cons a rest ih =>
    obtain ⟨k2, w⟩ := a
    unfold mapWF at hwf ih ⊢
    simp only [List.map_cons, List.pairwise_cons] at hwf
    by_cases h1 : k < k2
    · simp only [mapAssign, h1, if_true, List.map_cons, List.pairwise_cons]
      refine ⟨?_, hwf.1, hwf.2⟩
      intro j hj
      rcases List.mem_cons.mp hj with e | e
      · rw [e]; exact h1
      · exact lt_trans h1 (hwf.1 j e)
    · by_cases h3 : k = k2
      · simp only [mapAssign, h3, lt_irrefl, if_false, if_true, List.map_cons,
          List.pairwise_cons]
        exact hwf
      · simp only [mapAssign, h1, h3, if_false, List.map_cons, List.pairwise_cons]
        refine ⟨?_, ih hwf.2⟩
        intro j hj
        obtain ⟨x, hx, rfl⟩ := List.mem_map.mp hj
        rcases mem_mapAssign rest k v x hx with e | e
        · rw [e]
          exact lt_of_le_of_ne (not_lt.mp h1) (fun e2 => h3 e2.symm)
        · exact hwf.1 x.1 (List.mem_map.mpr ⟨x, e, rfl⟩)

theorem mapWF_mapErase (m : vtkTimerIdMap) (k : Int) (hwf : mapWF m) :
    mapWF (mapErase m k) := by
  induction m with
  | nil => simp [mapErase, mapWF]
  | cons a rest ih =>
    obtain ⟨k2, w⟩ := a
    unfold mapWF at hwf ih ⊢
    simp only [List.map_cons, List.pairwise_cons] at hwf
    by_cases h1 : k2 = k
    · simp only [mapErase, h1, if_true]
      exact ih hwf.2
    · simp only [mapErase, h1, if_false, List.map_cons, List.pairwise_cons]
      refine ⟨?_, ih hwf.2⟩
      intro j hj
      obtain ⟨x, hx, rfl⟩ := List.mem_map.mp hj
      exact hwf.1 x.1 (List.mem_map.mpr ⟨x, mem_mapErase rest k x hx, rfl⟩)

theorem keys_mapSetId (m : vtkTimerIdMap) (k p : Int) :
    (mapSetId m k p).map Prod.fst = m.map Prod.fst := by
  induction m with
  | nil => simp [mapSetId]
  | cons a rest ih =>
    obtain ⟨k2, w⟩ := a
    by_cases h1 : k2 = k
    · simp [mapSetId, h1]
    · simp [mapSetId, h1, ih]

theorem mapWF_mapSetId (m : vtkTimerIdMap) (k p : Int) (hwf : mapWF m) :
    mapWF (mapSetId m k p) := by
  unfold mapWF at hwf ⊢
  rw [keys_mapSetId]
  exact hwf

/-! ## The effect of one call -/

theorem TimerOp.apply_counter (s : Interactor) (op : TimerOp) :
    s.vtkTimerId ≤ (op.apply s).2.vtkTimerId := by
  cases op <;>
    simp only [TimerOp.apply, CreateTimer, DestroyTimer_void, CreateRepeatingTimer,
      CreateOneShotTimer, ResetTimer, DestroyTimer, Interactor.call] <;>
    (repeat' split) <;> simp

theorem TimerOp.apply_counter_le_succ (s : Interactor) (op : TimerOp) :
    (op.apply s).2.vtkTimerId ≤ s.vtkTimerId + 1 := by
  cases op <;>
    simp only [TimerOp.apply, CreateTimer, DestroyTimer_void, CreateRepeatingTimer,
      CreateOneShotTimer, ResetTimer, DestroyTimer, Interactor.call] <;>
    (repeat' split) <;> simp

theorem TimerOp.apply_mapWF (s : Interactor) (op : TimerOp) (hwf : mapWF s.TimerMap) :
    mapWF (op.apply s).2.TimerMap := by
  cases op <;>
    simp only [TimerOp.apply, CreateTimer, DestroyTimer_void, CreateRepeatingTimer,
      CreateOneShotTimer, ResetTimer, DestroyTimer, Interactor.call] <;>
    (repeat' split) <;>
    first
      | exact hwf
      | exact mapWF_mapAssign _ _ _ hwf
      | exact mapWF_mapErase _ _ hwf
      | exact mapWF_mapSetId _ _ _ hwf

theorem TimerOp.apply_created (s : Interactor) (op : TimerOp) (h1 : 1 ≤ s.vtkTimerId)
    (hop : op.isCreate = true) : (op.apply s).1 ≤ (op.apply s).2.vtkTimerId := by
  cases op <;> simp [TimerOp.isCreate] at hop <;>
    simp only [TimerOp.apply, CreateTimer, CreateRepeatingTimer, CreateOneShotTimer,
      Interactor.call] <;>
    (repeat' split) <;> simp <;> omega

theorem TimerOp.apply_nodes (s : Interactor) (op : TimerOp) (x : Int × vtkTimerStruct)
    (hx : x ∈ (op.apply s).2.TimerMap) :
    x ∈ s.TimerMap
    ∨ (op.isCreate = true ∧ x.1 = (op.apply s).1 ∧ s.vtkTimerId ≤ x.1
        ∧ x.1 ≤ (op.apply s).2.vtkTimerId ∧ x.2.Id ∈ op.issued s ∧ x.2.Id ≠ 0)
    ∨ (∃ v, (x.1, v) ∈ s.TimerMap ∧ x.2.Id ∈ op.issued s ∧ x.2.Id ≠ 0) := by
  cases op with
  | createTimer timerType p =>
    by_cases ht : timerType = VTKI_TIMER_FIRST <;> by_cases hp : 0 = p <;>
      simp [TimerOp.apply, CreateTimer, Interactor.call, ht, hp] at hx
    · exact Or.inl hx
    · rcases mem_mapAssign _ _ _ _ hx with e | e
      · subst e
        have hp2 : ¬ p = 0 := fun e => hp e.symm
        simp [TimerOp.apply, TimerOp.isCreate, TimerOp.issued, CreateTimer, Interactor.call,
          ht, hp, hp2]
      · exact Or.inl e
    · exact Or.inl hx
    · exact Or.inl hx
  | createRepeatingTimer d p =>
    by_cases hp : 0 = p <;>
      simp [TimerOp.apply, CreateRepeatingTimer, Interactor.call, hp] at hx
    · exact Or.inl hx
    · rcases mem_mapAssign _ _ _ _ hx with e | e
      · subst e
        have hp2 : ¬ p = 0 := fun e => hp e.symm
        simp [TimerOp.apply, TimerOp.isCreate, TimerOp.issued, CreateRepeatingTimer,
          Interactor.call, hp, hp2]
      · exact Or.inl e
  | createOneShotTimer d p =>
    by_cases hp : 0 = p <;>
      simp [TimerOp.apply, CreateOneShotTimer, Interactor.call, hp] at hx
    · exact Or.inl hx
    · rcases mem_mapAssign _ _ _ _ hx with e | e
      · subst e
        have hp2 : ¬ p = 0 := fun e => hp e.symm
        simp [TimerOp.apply, TimerOp.isCreate, TimerOp.issued, CreateOneShotTimer,
          Interactor.call, hp, hp2]
      · exact Or.inl e
  | destroyTimer_void destroyed =>
    cases hf : mapFind s.TimerMap s.vtkTimerId <;>
      simp [TimerOp.apply, DestroyTimer_void, Interactor.call, hf] at hx
    · exact Or.inl hx
    · exact Or.inl (mem_mapErase _ _ _ hx)
  | destroyTimer timerId destroyed =>
    cases hf : mapFind s.TimerMap timerId <;>
      simp [TimerOp.apply, DestroyTimer, Interactor.call, hf] at hx
    · exact Or.inl hx
    · exact Or.inl (mem_mapErase _ _ _ hx)
  | resetTimer timerId destroyed p =>
    cases hf : mapFind s.TimerMap timerId <;> by_cases hp : p = 0 <;>
      simp [TimerOp.apply, ResetTimer, Interactor.call, hf, hp] at hx
    · exact Or.inl hx
    · exact Or.inl hx
    · exact Or.inl (mem_mapErase _ _ _ hx)
    · rcases mem_mapSetId _ _ _ _ hx with e | ⟨v, e1, e2⟩
      · exact Or.inl e
      · subst e2
        exact Or.inr (Or.inr ⟨v, e1, by simp [TimerOp.issued, hf, hp]⟩)
  | otherInteractorCreate => exact Or.inl (by simpa [TimerOp.apply] using hx)

/-! ## What every run keeps -/

theorem Run.Inv_step (r : Run) (op : TimerOp) (h : r.Inv) : (r.step op).Inv := by
  obtain ⟨h1, hwf, hn, hc⟩ := h
  have hcnt := TimerOp.apply_counter r.state op
  refine ⟨le_trans h1 hcnt, TimerOp.apply_mapWF _ _ hwf, ?_, ?_⟩
  · intro x hx
    rcases TimerOp.apply_nodes r.state op x hx with e | ⟨e1, e2, e3, e4, e5, e6⟩ | ⟨v, e1, e2, e3⟩
    · obtain ⟨a, b, c, d, e⟩ := hn x e
      refine ⟨?_, b, le_trans c hcnt, List.mem_append_left _ d, e⟩
      simp only [Run.step]
      split
      · exact List.mem_append_left _ a
      · exact a
    · refine ⟨?_, le_trans h1 e3, e4, List.mem_append_right _ e5, e6⟩
      simp [Run.step, e1, e2]
    · obtain ⟨a, b, c, _, _⟩ := hn _ e1
      refine ⟨?_, b, le_trans c hcnt, List.mem_append_right _ e2, e3⟩
      simp only [Run.step]
      split
      · exact List.mem_append_left _ a
      · exact a
  · intro j hj
    by_cases hop : op.isCreate = true
    · simp only [Run.step, hop, if_true, List.mem_append, List.mem_singleton] at hj
      rcases hj with hj | hj
      · exact le_trans (hc j hj) hcnt
      · rw [hj]
        exact TimerOp.apply_created _ _ h1 hop
    · simp only [Run.step, hop] at hj
      exact le_trans (hc j hj) hcnt

theorem runOps_snoc (ops : List TimerOp) (op : TimerOp) :
    runOps (ops ++ [op]) = (runOps ops).step op := by
  simp [runOps, List.foldl_append]

theorem runOps_Inv (ops : List TimerOp) : (runOps ops).Inv := by
  induction ops using List.reverseRecOn with
  | nil => simp [runOps, Run.Inv, initialInteractor, mapWF]
  | append_singleton ops op ih =>
    rw [runOps_snoc]
    exact Run.Inv_step _ _ ih

/-- The counter after a run is at least 1 and at most 1 plus the number of calls: a run of
fewer than `INT_MAX - 1` calls keeps `vtkTimerId` within the range of `int`, where the
model's `Int` arithmetic is the source's. -/
theorem counter_bounded_by_calls (ops : List TimerOp) :
    1 ≤ (runOps ops).state.vtkTimerId
    ∧ (runOps ops).state.vtkTimerId ≤ 1 + (ops.length : Int) := by
  refine ⟨(runOps_Inv ops).1, ?_⟩
  induction ops using List.reverseRecOn with
  | nil => simp [runOps, initialInteractor]
  | append_singleton ops op ih =>
    rw [runOps_snoc]
    have := TimerOp.apply_counter_le_succ (runOps ops).state op
    simp only [Run.step, List.length_append, List.length_singleton, Nat.cast_add,
      Nat.cast_one]
    omega

/-! ## The scan of `GetVTKTimerId` -/

theorem scanTimerMap_eq_zero (m : vtkTimerIdMap) (p : Int)
    (h : ∀ x ∈ m, x.2.Id ≠ p) : scanTimerMap m p = 0 := by
  induction m with
  | nil => simp [scanTimerMap]
  | cons a rest ih =>
    obtain ⟨k, v⟩ := a
    have hv : ¬ v.Id = p := h (k, v) (List.mem_cons_self _ _)
    simp only [scanTimerMap, hv, if_false]
    exact ih (fun x hx => h x (List.mem_cons_of_mem _ hx))

theorem scanTimerMap_found (m : vtkTimerIdMap) (p : Int)
    (h : ∃ x ∈ m, x.2.Id = p) : ∃ v, (scanTimerMap m p, v) ∈ m ∧ v.Id = p := by
  induction m with
  | nil => simp at h
  | cons a rest ih =>
    obtain ⟨k, v⟩ := a
    by_cases hv : v.Id = p
    · exact ⟨v, by simp [scanTimerMap, hv], hv⟩
    · obtain ⟨x, hx, hxp⟩ := h
      rcases List.mem_cons.mp hx with e | e
      · subst e
        exact absurd hxp hv
      · obtain ⟨v2, h1, h2⟩ := ih ⟨x, e, hxp⟩
        exact ⟨v2, by simp [scanTimerMap, hv, h1], h2⟩

theorem scanTimerMap_le (m : vtkTimerIdMap) (p k : Int) (v : vtkTimerStruct)
    (hwf : mapWF m) (hm : (k, v) ∈ m) (hv : v.Id = p) : scanTimerMap m p ≤ k := by
  induction m with
  | nil => simp at hm
  | cons a rest ih =>
    obtain ⟨k2, w⟩ := a
    unfold mapWF at hwf ih
    simp only [List.map_cons, List.pairwise_cons] at hwf
    by_cases hw : w.Id = p
    · simp only [scanTimerMap, hw, if_true]
      rcases List.mem_cons.mp hm with e | e
      · injection e with e1 e2
        exact le_of_eq e1.symm
      · exact le_of_lt (hwf.1 k (List.mem_map.mpr ⟨(k, v), e, rfl⟩))
    · simp only [scanTimerMap, hw, if_false]
      rcases List.mem_cons.mp hm with e | e
      · injection e with e1 e2
        subst e2
        exact absurd hv hw
      · exact ih hwf.2 e

/-! ## Runs from the state after the constructor -/

/-- C1: after every sequence of calls from the state after the constructor, and for every
id that no create call of the sequence has returned, the lookups return their "not found"
value and change nothing: `IsOneShotTimer(id)` is 0, `GetTimerDuration(id)` is 0, and
`DestroyTimer(id)` and `ResetTimer(id)` return 0 and leave the state as it is, whatever the
platform would return. -/
theorem unknown_id_not_found (ops : List TimerOp) (timerId : Int)
    (h : timerId ∉ (runOps ops).created) :
    IsOneShotTimer (runOps ops).state timerId = 0
    ∧ GetTimerDuration (runOps ops).state timerId = 0
    ∧ (∀ destroyed,
        DestroyTimer (runOps ops).state timerId destroyed = (0, (runOps ops).state))
    ∧ (∀ destroyed platformTimerId,
        ResetTimer (runOps ops).state timerId destroyed platformTimerId
          = (0, (runOps ops).state)) := by
  have hf : mapFind (runOps ops).state.TimerMap timerId = none := by
    cases hf : mapFind (runOps ops).state.TimerMap timerId with
    | none => rfl
    | some rec =>
      exact absurd ((runOps_Inv ops).2.2.1 _ (mem_of_mapFind _ _ _ hf)).1 h
  simp [IsOneShotTimer, GetTimerDuration, DestroyTimer, ResetTimer, hf]

theorem unknown_id_not_found_witness :
    3 ∉ (runOps sampleCalls).created
    ∧ IsOneShotTimer (runOps sampleCalls).state 3 = 0
    ∧ GetTimerDuration (runOps sampleCalls).state 3 = 0
    ∧ (∀ destroyed,
        DestroyTimer (runOps sampleCalls).state 3 destroyed = (0, (runOps sampleCalls).state))
    ∧ (∀ destroyed platformTimerId,
        ResetTimer (runOps sampleCalls).state 3 destroyed platformTimerId
          = (0, (runOps sampleCalls).state)) :=
  ⟨by decide, unknown_id_not_found sampleCalls 3 (by decide)⟩

/-- C7: after every sequence of calls from the state after the constructor and for every
platform handle `h`: `GetVTKTimerId(h)` is 0 when the platform never returned `h` from
`InternalCreateTimer`, and 0 when no record holds `h`; when some record holds `h`, it is
non-zero, it is the id of a record that holds `h`, and it is the least such id; and when
the records hold distinct handles it is the id of the one record that holds `h`. -/
theorem translate_platform_id (ops : List TimerOp) (platformTimerId : Int) :
    (platformTimerId ∉ (runOps ops).issued →
      GetVTKTimerId (runOps ops).state platformTimerId = 0)
    ∧ ((∀ timerId rec, mapFind (runOps ops).state.TimerMap timerId = some rec →
          rec.Id ≠ platformTimerId) →
        GetVTKTimerId (runOps ops).state platformTimerId = 0)
    ∧ (∀ timerId rec, mapFind (runOps ops).state.TimerMap timerId = some rec →
        rec.Id = platformTimerId →
        GetVTKTimerId (runOps ops).state platformTimerId ≠ 0
        ∧ GetVTKTimerId (runOps ops).state platformTimerId ≤ timerId
        ∧ ∃ owner, mapFind (runOps ops).state.TimerMap
              (GetVTKTimerId (runOps ops).state platformTimerId) = some owner
            ∧ owner.Id = platformTimerId)
    ∧ (distinctHandles (runOps ops).state.TimerMap →
        ∀ timerId rec, mapFind (runOps ops).state.TimerMap timerId = some rec →
          rec.Id = platformTimerId →
          GetVTKTimerId (runOps ops).state platformTimerId = timerId) := by
  obtain ⟨_, hwf, hn, _⟩ := runOps_Inv ops
  have hfound : ∀ timerId rec, mapFind (runOps ops).state.TimerMap timerId = some rec →
      rec.Id = platformTimerId →
      ∃ owner, mapFind (runOps ops).state.TimerMap
            (GetVTKTimerId (runOps ops).state platformTimerId) = some owner
          ∧ owner.Id = platformTimerId := by
    intro timerId rec hf hr
    obtain ⟨v, hv1, hv2⟩ := scanTimerMap_found (runOps ops).state.TimerMap platformTimerId
      ⟨(timerId, rec), mem_of_mapFind _ _ _ hf, hr⟩
    exact ⟨v, mapFind_of_mem _ _ _ hwf hv1, hv2⟩
  refine ⟨?_, ?_, ?_, ?_⟩
  · intro hni
    apply scanTimerMap_eq_zero
    intro x hx e
    exact hni (e ▸ (hn x hx).2.2.2.1)
  · intro hnone
    apply scanTimerMap_eq_zero
    intro x hx
    exact hnone x.1 x.2 (mapFind_of_mem _ _ _ hwf hx)
  · intro timerId rec hf hr
    obtain ⟨owner, ho1, ho2⟩ := hfound timerId rec hf hr
    refine ⟨?_, ?_, owner, ho1, ho2⟩
    · have := (hn _ (mem_of_mapFind _ _ _ ho1)).2.1
      intro e
      rw [e] at this
      omega
    · exact scanTimerMap_le _ _ _ _ hwf (mem_of_mapFind _ _ _ hf) hr
  · intro hdistinct timerId rec hf hr
    obtain ⟨owner, ho1, ho2⟩ := hfound timerId rec hf hr
    exact hdistinct _ (mem_of_mapFind _ _ _ ho1) _ (mem_of_mapFind _ _ _ hf)
      (ho2.trans hr.symm)

theorem translate_platform_id_witness :
    distinctHandles (runOps mixedTimers).state.TimerMap
    ∧ GetVTKTimerId (runOps mixedTimers).state 9 = 3
    ∧ 6 ∉ (runOps mixedTimers).issued
    ∧ GetVTKTimerId (runOps mixedTimers).state 6 = 0 :=
  ⟨by decide,
    (translate_platform_id mixedTimers 9).2.2.2 (by decide) 3 ⟨9, .RepeatingTimer, 5⟩
      (by decide) (by decide),
    by decide,
    (translate_platform_id mixedTimers 6).1 (by decide)⟩

theorem Reachable.inv (s : Interactor) (h : Reachable s) : ∃ r : Run, r.Inv ∧ r.state = s := by
  obtain ⟨ops, rfl⟩ := h
  exact ⟨runOps ops, runOps_Inv ops, rfl⟩

/-- C8: in every state reachable from the state after the constructor (no records, counter
1) by any calls with any platform outcomes, no record is stored under id 0; every create
call that stores a record (the platform returned a non-zero handle, and for the old-style
`CreateTimer` the request is `VTKI_TIMER_FIRST`) returns a non-zero id, under which the
record is then found; and a create call that returns 0 leaves the map of records as it
was. -/
theorem id_zero_never_assigned (s : Interactor) (h : Reachable s) :
    mapFind s.TimerMap 0 = none
    ∧ (∀ d p, p ≠ 0 →
        (CreateRepeatingTimer s d p).1 ≠ 0
        ∧ mapFind (CreateRepeatingTimer s d p).2.TimerMap (CreateRepeatingTimer s d p).1
            = some ⟨p, .RepeatingTimer, d⟩)
    ∧ (∀ d p, p ≠ 0 →
        (CreateOneShotTimer s d p).1 ≠ 0
        ∧ mapFind (CreateOneShotTimer s d p).2.TimerMap (CreateOneShotTimer s d p).1
            = some ⟨p, .OneShotTimer, d⟩)
    ∧ (∀ p, p ≠ 0 →
        (CreateTimer s VTKI_TIMER_FIRST p).1 ≠ 0
        ∧ mapFind (CreateTimer s VTKI_TIMER_FIRST p).2.TimerMap
            (CreateTimer s VTKI_TIMER_FIRST p).1 = some ⟨p, .RepeatingTimer, s.TimerDuration⟩)
    ∧ (∀ op : TimerOp, op.isCreate = true → (op.apply s).1 = 0 →
        (op.apply s).2.TimerMap = s.TimerMap) := by
  obtain ⟨r, ⟨h1, _, hn, _⟩, rfl⟩ := Reachable.inv s h
  refine ⟨?_, ?_, ?_, ?_, ?_⟩
  · cases hf : mapFind r.state.TimerMap 0 with
    | none => rfl
    | some rec =>
      have := (hn _ (mem_of_mapFind _ _ _ hf)).2.1
      simp at this
  · intro d p hp
    have h0 : ¬ 0 = p := fun e => hp e.symm
    refine ⟨?_, ?_⟩
    · simp [CreateRepeatingTimer, Interactor.call, h0]
      omega
    · simp [CreateRepeatingTimer, Interactor.call, h0, mapFind_mapAssign]
  · intro d p hp
    have h0 : ¬ 0 = p := fun e => hp e.symm
    refine ⟨?_, ?_⟩
    · simp [CreateOneShotTimer, Interactor.call, h0]
      omega
    · simp [CreateOneShotTimer, Interactor.call, h0, mapFind_mapAssign]
  · intro p hp
    have h0 : ¬ 0 = p := fun e => hp e.symm
    refine ⟨?_, ?_⟩
    · simp [CreateTimer, Interactor.call, h0]
      omega
    · simp [CreateTimer, Interactor.call, h0, mapFind_mapAssign]
  · intro op hop hret
    cases op with
    | createTimer timerType p =>
      by_cases ht : timerType = VTKI_TIMER_FIRST
      · by_cases h0 : 0 = p
        · simp [TimerOp.apply, CreateTimer, Interactor.call, ht, h0]
        · simp [TimerOp.apply, CreateTimer, Interactor.call, ht, h0] at hret
          omega
      · simp [TimerOp.apply, CreateTimer, ht]
    | createRepeatingTimer d p =>
      by_cases h0 : 0 = p
      · simp [TimerOp.apply, CreateRepeatingTimer, Interactor.call, h0]
      · simp [TimerOp.apply, CreateRepeatingTimer, Interactor.call, h0] at hret
        omega
    | createOneShotTimer d p =>
      by_cases h0 : 0 = p
      · simp [TimerOp.apply, CreateOneShotTimer, Interactor.call, h0]
      · simp [TimerOp.apply, CreateOneShotTimer, Interactor.call, h0] at hret
        omega
    | destroyTimer_void _ => simp [TimerOp.isCreate] at hop
    | resetTimer _ _ _ => simp [TimerOp.isCreate] at hop
    | destroyTimer _ _ => simp [TimerOp.isCreate] at hop
    | otherInteractorCreate => simp [TimerOp.isCreate] at hop

theorem id_zero_never_assigned_witness :
    Reachable (runOps sampleCalls).state
    ∧ mapFind (runOps sampleCalls).state.TimerMap 0 = none
    ∧ (CreateOneShotTimer (runOps sampleCalls).state 30 4).1 ≠ 0 :=
  ⟨⟨sampleCalls, rfl⟩,
    (id_zero_never_assigned (runOps sampleCalls).state ⟨sampleCalls, rfl⟩).1,
    ((id_zero_never_assigned (runOps sampleCalls).state ⟨sampleCalls, rfl⟩).2.2.1 30 4
      (by decide)).1⟩

/-- C9: after every sequence of calls from the state after the constructor, a successful
`CreateRepeatingTimer` or `CreateOneShotTimer` (the platform returns a non-zero handle)
returns an id that had no record before the call and that is strictly greater than every
value returned by the earlier create calls of the sequence (old-style `CreateTimer`
included). -/
theorem create_returns_fresh_increasing_id (ops : List TimerOp) (d : Nat)
    (platformTimerId : Int) (hp : platformTimerId ≠ 0) :
    mapFind (runOps ops).state.TimerMap
        (CreateRepeatingTimer (runOps ops).state d platformTimerId).1 = none
    ∧ (∀ j ∈ (runOps ops).created,
        j < (CreateRepeatingTimer (runOps ops).state d platformTimerId).1)
    ∧ mapFind (runOps ops).state.TimerMap
        (CreateOneShotTimer (runOps ops).state d platformTimerId).1 = none
    ∧ (∀ j ∈ (runOps ops).created,
        j < (CreateOneShotTimer (runOps ops).state d platformTimerId).1) := by
  obtain ⟨_, _, hn, hc⟩ := runOps_Inv ops
  have h0 : ¬ 0 = platformTimerId := fun e => hp e.symm
  have hfresh : mapFind (runOps ops).state.TimerMap ((runOps ops).state.vtkTimerId + 1)
      = none := by
    cases hf : mapFind (runOps ops).state.TimerMap ((runOps ops).state.vtkTimerId + 1) with
    | none => rfl
    | some rec =>
      have := (hn _ (mem_of_mapFind _ _ _ hf)).2.2.1
      simp at this
  have hgt : ∀ j ∈ (runOps ops).created, j < (runOps ops).state.vtkTimerId + 1 :=
    fun j hj => Int.lt_add_one_iff.mpr (hc j hj)
  simpa [CreateRepeatingTimer, CreateOneShotTimer, Interactor.call, h0] using
    (⟨hfresh, hgt, hfresh, hgt⟩ : _ ∧ _ ∧ _ ∧ _)

theorem create_returns_fresh_increasing_id_witness :
    mapFind (runOps sampleCalls).state.TimerMap
        (CreateRepeatingTimer (runOps sampleCalls).state 30 4).1 = none
    ∧ (∀ j ∈ (runOps sampleCalls).created,
        j < (CreateRepeatingTimer (runOps sampleCalls).state 30 4).1)
    ∧ mapFind (runOps sampleCalls).state.TimerMap
        (CreateOneShotTimer (runOps sampleCalls).state 30 4).1 = none
    ∧ (∀ j ∈ (runOps sampleCalls).created,
        j < (CreateOneShotTimer (runOps sampleCalls).state 30 4).1) :=
  create_returns_fresh_increasing_id sampleCalls 30 4 (by decide)

/-- C10: in every state `DestroyTimer()` does what `DestroyTimer(c)` does for the current
value `c` of the id counter (`GetCurrentTimerId()`): the same return value, the same
platform calls and the same registry afterwards, whatever the platform's destroy call
returns. The counter is the id most recently allocated: `CreateRepeatingTimer` and
`CreateOneShotTimer` pass the platform the counter's new value as the id of the timer
(and return it when the platform succeeds), and `CreateTimer`, `DestroyTimer()`,
`DestroyTimer(id)` and `ResetTimer(id)` leave the counter as it is. -/
theorem destroy_void_targets_current_id (s : Interactor) (destroyed : Int) :
    DestroyTimer_void s destroyed = DestroyTimer s (GetCurrentTimerId s) destroyed
    ∧ (∀ d p,
        (CreateRepeatingTimer s d p).2.platformCalls = s.platformCalls ++
          [PlatformCall.InternalCreateTimer
            (GetCurrentTimerId (CreateRepeatingTimer s d p).2) .RepeatingTimer d]
        ∧ ((CreateRepeatingTimer s d p).1 = 0
          ∨ (CreateRepeatingTimer s d p).1
            = GetCurrentTimerId (CreateRepeatingTimer s d p).2))
    ∧ (∀ d p,
        (CreateOneShotTimer s d p).2.platformCalls = s.platformCalls ++
          [PlatformCall.InternalCreateTimer
            (GetCurrentTimerId (CreateOneShotTimer s d p).2) .OneShotTimer d]
        ∧ ((CreateOneShotTimer s d p).1 = 0
          ∨ (CreateOneShotTimer s d p).1
            = GetCurrentTimerId (CreateOneShotTimer s d p).2))
    ∧ (∀ t p, GetCurrentTimerId (CreateTimer s t p).2 = GetCurrentTimerId s)
    ∧ (∀ r, GetCurrentTimerId (DestroyTimer_void s r).2 = GetCurrentTimerId s)
    ∧ (∀ i r, GetCurrentTimerId (DestroyTimer s i r).2 = GetCurrentTimerId s)
    ∧ (∀ i r p, GetCurrentTimerId (ResetTimer s i r p).2 = GetCurrentTimerId s) := by
  refine ⟨rfl, ?_, ?_, ?_, ?_, ?_, ?_⟩
  · intro d p
    by_cases h0 : 0 = p <;> simp [CreateRepeatingTimer, GetCurrentTimerId, Interactor.call, h0]
  · intro d p
    by_cases h0 : 0 = p <;> simp [CreateOneShotTimer, GetCurrentTimerId, Interactor.call, h0]
  · intro t p
    by_cases ht : t = VTKI_TIMER_FIRST <;> by_cases h0 : 0 = p <;>
      simp [CreateTimer, GetCurrentTimerId, Interactor.call, ht, h0]
  · intro r
    cases hf : mapFind s.TimerMap s.vtkTimerId <;>
      simp [DestroyTimer_void, GetCurrentTimerId, Interactor.call, hf]
  · intro i r
    cases hf : mapFind s.TimerMap i <;>
      simp [DestroyTimer, GetCurrentTimerId, Interactor.call, hf]
  · intro i r p
    cases hf : mapFind s.TimerMap i <;> by_cases h0 : p = 0 <;>
      simp [ResetTimer, GetCurrentTimerId, Interactor.call, hf, h0]

/-! ## Old-style calls and the other records -/

/-- C11: in every state and for every request other than `VTKI_TIMER_FIRST`, the old-style
`CreateTimer` returns 1 and changes nothing: no platform call is made, and the records, the
id counter and the rest of the state are what they were. -/
theorem create_timer_other_kind_noop (s : Interactor) (timerType platformTimerId : Int)
    (h : timerType ≠ VTKI_TIMER_FIRST) :
    CreateTimer s timerType platformTimerId = (1, s) := by
  simp [CreateTimer, h]

theorem create_timer_other_kind_noop_witness :
    (1 : Int) ≠ VTKI_TIMER_FIRST
    ∧ CreateTimer (runOps mixedTimers).state 1 7 = (1, (runOps mixedTimers).state) :=
  ⟨by decide, create_timer_other_kind_noop (runOps mixedTimers).state 1 7 (by decide)⟩

/-- C19: in every state the old-style `CreateTimer` with `VTKI_TIMER_FIRST` leaves the id
counter as it is and asks the platform for a repeating timer of the interactor's
`TimerDuration` under the counter's current value `c`. When the platform returns a non-zero
handle it returns `c` and the map becomes the old map with the record (handle, repeating,
`TimerDuration`) assigned to `c`: that record is found under `c`, whatever was there
before, and every other id keeps what it had. When the platform returns 0 it returns 0 and
the map is unchanged. -/
theorem create_timer_first (s : Interactor) (platformTimerId : Int) :
    GetCurrentTimerId (CreateTimer s VTKI_TIMER_FIRST platformTimerId).2 = GetCurrentTimerId s
    ∧ (CreateTimer s VTKI_TIMER_FIRST platformTimerId).2.platformCalls
        = s.platformCalls ++
          [PlatformCall.InternalCreateTimer (GetCurrentTimerId s) .RepeatingTimer
            s.TimerDuration]
    ∧ (platformTimerId ≠ 0 →
        (CreateTimer s VTKI_TIMER_FIRST platformTimerId).1 = GetCurrentTimerId s
        ∧ (CreateTimer s VTKI_TIMER_FIRST platformTimerId).2.TimerMap
            = mapAssign s.TimerMap (GetCurrentTimerId s)
                ⟨platformTimerId, .RepeatingTimer, s.TimerDuration⟩
        ∧ mapFind (CreateTimer s VTKI_TIMER_FIRST platformTimerId).2.TimerMap
            (GetCurrentTimerId s) = some ⟨platformTimerId, .RepeatingTimer, s.TimerDuration⟩
        ∧ ∀ j, j ≠ GetCurrentTimerId s →
            mapFind (CreateTimer s VTKI_TIMER_FIRST platformTimerId).2.TimerMap j
              = mapFind s.TimerMap j)
    ∧ (platformTimerId = 0 →
        (CreateTimer s VTKI_TIMER_FIRST platformTimerId).1 = 0
        ∧ (CreateTimer s VTKI_TIMER_FIRST platformTimerId).2.TimerMap = s.TimerMap) := by
  by_cases hp : 0 = platformTimerId
  · have hp2 : platformTimerId = 0 := hp.symm
    simp [CreateTimer, GetCurrentTimerId, Interactor.call, hp2]
  · have hp2 : ¬ platformTimerId = 0 := fun e => hp e.symm
    refine ⟨?_, ?_, ?_, ?_⟩
    · simp [CreateTimer, GetCurrentTimerId, Interactor.call, hp]
    · simp [CreateTimer, GetCurrentTimerId, Interactor.call, hp]
    · intro _
      refine ⟨?_, ?_, ?_, ?_⟩
      · simp [CreateTimer, GetCurrentTimerId, Interactor.call, hp]
      · simp [CreateTimer, GetCurrentTimerId, Interactor.call, hp]
      · simp [CreateTimer, GetCurrentTimerId, Interactor.call, hp, mapFind_mapAssign]
      · intro j hj
        have hj2 : ¬ j = s.vtkTimerId := hj
        simp [CreateTimer, Interactor.call, hp, mapFind_mapAssign, hj2]
    · intro h0
      exact absurd h0 hp2

theorem create_timer_first_witness :
    (CreateTimer (runOps mixedTimers).state VTKI_TIMER_FIRST 5).1 = 4
    ∧ mapFind (CreateTimer (runOps mixedTimers).state VTKI_TIMER_FIRST 5).2.TimerMap 4
        = some ⟨5, .RepeatingTimer, 10⟩
    ∧ mapFind (runOps mixedTimers).state.TimerMap 4 = some ⟨8, .OneShotTimer, 3⟩
    ∧ (CreateTimer (runOps mixedTimers).state VTKI_TIMER_FIRST 0).1 = 0 :=
  ⟨((create_timer_first (runOps mixedTimers).state 5).2.2.1 (by decide)).1,
    ((create_timer_first (runOps mixedTimers).state 5).2.2.1 (by decide)).2.2.1,
    by decide,
    ((create_timer_first (runOps mixedTimers).state 0).2.2.2 rfl).1⟩

/-- C20: in every state and for every id, `DestroyTimer(id)` and `ResetTimer(id)` leave
every other id `j` with the record it had (same platform id, type and duration) or with
none if it had none, whether the call succeeds or fails and whatever the platform
returns. -/
theorem destroy_reset_frame (s : Interactor) (timerId j : Int)
    (destroyed platformTimerId : Int) (h : j ≠ timerId) :
    mapFind (DestroyTimer s timerId destroyed).2.TimerMap j = mapFind s.TimerMap j
    ∧ mapFind (ResetTimer s timerId destroyed platformTimerId).2.TimerMap j
        = mapFind s.TimerMap j := by
  have hj : ¬ j = timerId := h
  constructor
  · cases hf : mapFind s.TimerMap timerId <;>
      simp [DestroyTimer, Interactor.call, hf, mapFind_mapErase, hj]
  · cases hf : mapFind s.TimerMap timerId <;> by_cases hp : platformTimerId = 0 <;>
      simp [ResetTimer, Interactor.call, hf, hp, mapFind_mapErase, mapFind_mapSetId, hj]

theorem destroy_reset_frame_witness :
    (mapFind (DestroyTimer (runOps mixedTimers).state 3 0).2.TimerMap 4
        = mapFind (runOps mixedTimers).state.TimerMap 4
      ∧ mapFind (ResetTimer (runOps mixedTimers).state 3 0 0).2.TimerMap 4
        = mapFind (runOps mixedTimers).state.TimerMap 4)
    ∧ mapFind (runOps mixedTimers).state.TimerMap 4 = some ⟨8, .OneShotTimer, 3⟩ :=
  ⟨destroy_reset_frame (runOps mixedTimers).state 3 4 0 0 (by decide), by decide⟩

/-! ## The poked renderer -/

theorem TopFrom.step {R : Type} (P : R → Bool) (rc : List R) (k : Nat) (o : Option R)
    (aren : R) (hk : rc[k]? = some aren) (h : TopFrom P rc (k + 1) o) :
    TopFrom P rc k (if o.isNone && P aren then some aren else o) := by
  cases o with
  | some r =>
    obtain ⟨i, hi, h1, h2, h3⟩ := h
    exact ⟨i, by omega, h1, h2, h3⟩
  | none =>
    by_cases hp : P aren = true
    · simp only [Option.isNone_none, hp, Bool.and_self, if_true]
      exact ⟨k, le_refl k, hk, hp, fun j r2 hj hr => h j r2 (by omega) hr⟩
    · have hp2 : P aren = false := by simpa using hp
      simp only [Option.isNone_none, hp2, Bool.and_false, Bool.false_eq_true, if_false]
      intro j r2 hj hr
      by_cases hjk : j = k
      · subst hjk
        rw [hk] at hr
        injection hr with e
        rw [← e]
        exact hp2
      · exact h j r2 (by omega) hr

theorem pokeLoop_spec {R : Type} (V : RendererMethods R) (rc : List R) (x y : Int) (k : Nat)
    (st : PokeVars R) (hk : k ≤ rc.length)
    (h1 : TopFrom (V.pokes x y) rc k st.currentRenderer)
    (h2 : TopFrom V.GetInteractive rc k st.interactiveren)
    (h3 : TopFrom (fun r => V.IsInViewport r x y) rc k st.viewportren) :
    ∃ k2,
      TopFrom (V.pokes x y) rc k2 (pokeLoop V rc x y k st).currentRenderer
      ∧ TopFrom V.GetInteractive rc k2 (pokeLoop V rc x y k st).interactiveren
      ∧ TopFrom (fun r => V.IsInViewport r x y) rc k2 (pokeLoop V rc x y k st).viewportren
      ∧ ((pokeLoop V rc x y k st).currentRenderer = none → k2 = 0) := by
  induction k generalizing st with
  | zero => exact ⟨0, h1, h2, h3, fun _ => rfl⟩
  | succ k ih =>
    by_cases hc : st.currentRenderer.isSome = true
    · refine ⟨k + 1, ?_, ?_, ?_, ?_⟩
      · simpa [pokeLoop, hc] using h1
      · simpa [pokeLoop, hc] using h2
      · simpa [pokeLoop, hc] using h3
      · intro hn
        simp [pokeLoop, hc] at hn
        simp [hn] at hc
    · have hlt : k < rc.length := by omega
      have hget : rc[k]? = some rc[k] := List.getElem?_eq_getElem hlt
      have hnone : st.currentRenderer = none := by
        cases h : st.currentRenderer with
        | none => rfl
        | some r => simp [h] at hc
      have e : pokeLoop V rc x y (k + 1) st
          = pokeLoop V rc x y k (pokeBody V x y st rc[k]) := by
        simp [pokeLoop, hc, hget]
      rw [e]
      apply ih (pokeBody V x y st rc[k]) (by omega)
      · have := TopFrom.step (V.pokes x y) rc k st.currentRenderer rc[k] hget h1
        simpa [pokeBody, hnone] using this
      · exact TopFrom.step V.GetInteractive rc k st.interactiveren rc[k] hget h2
      · exact TopFrom.step (fun r => V.IsInViewport r x y) rc k st.viewportren rc[k] hget h3

theorem TopFrom.none_iff {R : Type} (P : R → Bool) (rc : List R) (o : Option R)
    (h : TopFrom P rc 0 o) : o = none ↔ ∀ r ∈ rc, P r = false := by
  cases o with
  | none =>
    refine ⟨fun _ r hr => ?_, fun _ => rfl⟩
    obtain ⟨i, hi, e⟩ := List.getElem_of_mem hr
    exact h i r (Nat.zero_le _) (by rw [List.getElem?_eq_getElem hi, e])
  | some r =>
    obtain ⟨i, _, h1, h2, _⟩ := h
    refine ⟨fun e => Option.noConfusion e, fun hall => ?_⟩
    have hm : r ∈ rc := List.getElem?_mem h1
    rw [hall r hm] at h2
    exact absurd h2 Bool.false_ne_true

theorem TopFrom.isTopmost {R : Type} (P : R → Bool) (rc : List R) (k : Nat) (r : R)
    (h : TopFrom P rc k (some r)) : IsTopmost P rc r := by
  obtain ⟨i, _, h1, h2, h3⟩ := h
  exact ⟨i, h1, h2, h3⟩

/-- The outcome of `FindPokedRenderer`: the topmost renderer that is poked (in the viewport
and interactive) if there is one; else the topmost interactive renderer if there is one;
else the topmost renderer whose viewport contains the point if there is one; else what
`GetFirstRenderer` returns. -/
theorem FindPokedRenderer_cases {R : Type} (V : RendererMethods R) (rc : List R) (x y : Int) :
    (∃ r, FindPokedRenderer V rc x y = some r ∧ IsTopmost (V.pokes x y) rc r)
    ∨ ((∀ r ∈ rc, V.pokes x y r = false)
      ∧ ((∃ r, FindPokedRenderer V rc x y = some r ∧ IsTopmost V.GetInteractive rc r)
        ∨ ((∀ r ∈ rc, V.GetInteractive r = false)
          ∧ ((∃ r, FindPokedRenderer V rc x y = some r
                ∧ IsTopmost (fun r => V.IsInViewport r x y) rc r)
            ∨ ((∀ r ∈ rc, V.IsInViewport r x y = false)
              ∧ FindPokedRenderer V rc x y = GetFirstRenderer rc))))) := by
  obtain ⟨k2, h1, h2, h3, h4⟩ := pokeLoop_spec V rc x y rc.length
    { currentRenderer := none, interactiveren := none, viewportren := none } (le_refl _)
    (fun j r2 hj hr => by
      have := (List.getElem?_eq_some.mp hr).1
      omega)
    (fun j r2 hj hr => by
      have := (List.getElem?_eq_some.mp hr).1
      omega)
    (fun j r2 hj hr => by
      have := (List.getElem?_eq_some.mp hr).1
      omega)
  generalize hst : pokeLoop V rc x y rc.length
    { currentRenderer := none, interactiveren := none, viewportren := none } = st at h1 h2 h3 h4
  have hF : FindPokedRenderer V rc x y
      = (if (if (if st.currentRenderer.isNone then st.interactiveren
                  else st.currentRenderer).isNone then st.viewportren
              else (if st.currentRenderer.isNone then st.interactiveren
                  else st.currentRenderer)).isNone then GetFirstRenderer rc
          else (if (if st.currentRenderer.isNone then st.interactiveren
                  else st.currentRenderer).isNone then st.viewportren
              else (if st.currentRenderer.isNone then st.interactiveren
                  else st.currentRenderer))) := by
    simp only [FindPokedRenderer, hst]
  cases hc : st.currentRenderer with
  | some r =>
    rw [hc] at h1
    exact Or.inl ⟨r, by simp [hF, hc], TopFrom.isTopmost _ _ _ _ h1⟩
  | none =>
    have hk0 : k2 = 0 := h4 hc
    subst hk0
    rw [hc] at h1
    refine Or.inr ⟨(TopFrom.none_iff _ _ _ h1).mp rfl, ?_⟩
    cases hi : st.interactiveren with
    | some r =>
      rw [hi] at h2
      exact Or.inl ⟨r, by simp [hF, hc, hi], TopFrom.isTopmost _ _ _ _ h2⟩
    | none =>
      rw [hi] at h2
      refine Or.inr ⟨(TopFrom.none_iff _ _ _ h2).mp rfl, ?_⟩
      cases hv : st.viewportren with
      | some r =>
        rw [hv] at h3
        exact Or.inl ⟨r, by simp [hF, hc, hi, hv], TopFrom.isTopmost _ _ _ _ h3⟩
      | none =>
        rw [hv] at h3
        exact Or.inr ⟨(TopFrom.none_iff _ _ _ h3).mp rfl, by simp [hF, hc, hi, hv]⟩

theorem IsTopmost.mem {R : Type} (P : R → Bool) (rc : List R) (r : R)
    (h : IsTopmost P rc r) : r ∈ rc ∧ P r = true := by
  obtain ⟨i, h1, h2, _⟩ := h
  exact ⟨List.getElem?_mem h1, h2⟩

/-- C12: for every collection of renderers and every point, if some renderer both contains
the point in its viewport and is interactive, `FindPokedRenderer` returns the topmost such
renderer: it sits at an index of the collection, contains the point and is interactive,
and no renderer at a higher index does both. -/
theorem poked_renderer_topmost {R : Type} (V : RendererMethods R) (rc : List R) (x y : Int)
    (h : ∃ r ∈ rc, V.IsInViewport r x y = true ∧ V.GetInteractive r = true) :
    ∃ r, FindPokedRenderer V rc x y = some r
      ∧ V.IsInViewport r x y = true ∧ V.GetInteractive r = true
      ∧ ∃ i : Nat, rc[i]? = some r
        ∧ ∀ (j : Nat) (r2 : R), i < j → rc[j]? = some r2 →
            ¬ (V.IsInViewport r2 x y = true ∧ V.GetInteractive r2 = true) := by
  rcases FindPokedRenderer_cases V rc x y with ⟨r, hr, i, h1, h2, h3⟩ | ⟨hno, _⟩
  · have h2b : V.IsInViewport r x y = true ∧ V.GetInteractive r = true := by
      simpa [RendererMethods.pokes] using h2
    refine ⟨r, hr, h2b.1, h2b.2, i, h1, ?_⟩
    intro j r2 hj hr2 hboth
    have := h3 j r2 hj hr2
    simp [RendererMethods.pokes, hboth.1, hboth.2] at this
  · obtain ⟨r, hr, hv, hi⟩ := h
    have := hno r hr
    simp [RendererMethods.pokes, hv, hi] at this

theorem poked_renderer_topmost_witness :
    (∃ r ∈ [0, 1, 0, 2],
      sampleRenderers.IsInViewport r 5 5 = true ∧ sampleRenderers.GetInteractive r = true)
    ∧ FindPokedRenderer sampleRenderers [0, 1, 0, 2] 5 5 = some 0
    ∧ ∃ r, FindPokedRenderer sampleRenderers [0, 1, 0, 2] 5 5 = some r
      ∧ sampleRenderers.IsInViewport r 5 5 = true ∧ sampleRenderers.GetInteractive r = true
      ∧ ∃ i : Nat, [0, 1, 0, 2][i]? = some r
        ∧ ∀ (j : Nat) (r2 : Nat), i < j → [0, 1, 0, 2][j]? = some r2 →
            ¬ (sampleRenderers.IsInViewport r2 5 5 = true
              ∧ sampleRenderers.GetInteractive r2 = true) :=
  ⟨by decide, by decide,
    poked_renderer_topmost sampleRenderers [0, 1, 0, 2] 5 5 (by decide)⟩

/-- C13: for every non-empty collection of renderers and every point such that no renderer
both contains the point and is interactive: if some renderer is interactive,
`FindPokedRenderer` returns the topmost interactive renderer; otherwise, if some renderer's
viewport contains the point, it returns the topmost renderer whose viewport contains the
point; otherwise it returns the first renderer of the collection. -/
theorem poked_renderer_fallback {R : Type} (V : RendererMethods R) (rc : List R) (x y : Int)
    (hne : rc ≠ [])
    (h : ∀ r ∈ rc, ¬ (V.IsInViewport r x y = true ∧ V.GetInteractive r = true)) :
    ((∃ r ∈ rc, V.GetInteractive r = true) →
      ∃ r, FindPokedRenderer V rc x y = some r ∧ IsTopmost V.GetInteractive rc r)
    ∧ ((∀ r ∈ rc, V.GetInteractive r = false) →
      (∃ r ∈ rc, V.IsInViewport r x y = true) →
      ∃ r, FindPokedRenderer V rc x y = some r
        ∧ IsTopmost (fun a => V.IsInViewport a x y) rc r)
    ∧ ((∀ r ∈ rc, V.GetInteractive r = false) →
      (∀ r ∈ rc, V.IsInViewport r x y = false) →
      ∃ r, rc[0]? = some r ∧ FindPokedRenderer V rc x y = some r) := by
  have hcases := FindPokedRenderer_cases V rc x y
  rcases hcases with ⟨r, _, ht⟩ | ⟨_, hrest⟩
  · obtain ⟨hm, hp⟩ := IsTopmost.mem _ _ _ ht
    have hp2 : V.IsInViewport r x y = true ∧ V.GetInteractive r = true := by
      simpa [RendererMethods.pokes] using hp
    exact absurd hp2 (h r hm)
  · refine ⟨?_, ?_, ?_⟩
    · rintro ⟨r, hr, hi⟩
      rcases hrest with hfound | ⟨hnone, _⟩
      · exact hfound
      · rw [hnone r hr] at hi
        exact absurd hi Bool.false_ne_true
    · rintro hni ⟨r, hr, hv⟩
      rcases hrest with ⟨r2, _, ht⟩ | ⟨_, hfound | ⟨hnone, _⟩⟩
      · have := IsTopmost.mem _ _ _ ht
        rw [hni r2 this.1] at this
        exact absurd this.2 Bool.false_ne_true
      · exact hfound
      · rw [hnone r hr] at hv
        exact absurd hv Bool.false_ne_true
    · intro hni hnv
      rcases hrest with ⟨r2, _, ht⟩ | ⟨_, ⟨r2, _, ht⟩ | ⟨_, hfirst⟩⟩
      · have := IsTopmost.mem _ _ _ ht
        rw [hni r2 this.1] at this
        exact absurd this.2 Bool.false_ne_true
      · have := IsTopmost.mem _ _ _ ht
        rw [hnv r2 this.1] at this
        exact absurd this.2 Bool.false_ne_true
      · cases rc with
        | nil => exact absurd rfl hne
        | cons a rest => exact ⟨a, by simp, by simpa [GetFirstRenderer] using hfirst⟩

theorem poked_renderer_fallback_witness :
    FindPokedRenderer sampleRenderers [1, 0, 2] 500 5 = some 0
    ∧ FindPokedRenderer sampleRenderers [2, 1, 1, 2] 5 5 = some 1
    ∧ FindPokedRenderer sampleRenderers [2, 1, 2] 500 5 = some 2
    ∧ (∃ r, FindPokedRenderer sampleRenderers [1, 0, 2] 500 5 = some r
        ∧ IsTopmost sampleRenderers.GetInteractive [1, 0, 2] r)
    ∧ (∃ r, FindPokedRenderer sampleRenderers [2, 1, 1, 2] 5 5 = some r
        ∧ IsTopmost (fun a => sampleRenderers.IsInViewport a 5 5) [2, 1, 1, 2] r)
    ∧ (∃ r, [2, 1, 2][0]? = some r
        ∧ FindPokedRenderer sampleRenderers [2, 1, 2] 500 5 = some r) :=
  ⟨by decide, by decide, by decide,
    (poked_renderer_fallback sampleRenderers [1, 0, 2] 500 5 (by decide) (by decide)).1
      (by decide),
    (poked_renderer_fallback sampleRenderers [2, 1, 1, 2] 5 5 (by decide) (by decide)).2.1
      (by decide) (by decide),
    (poked_renderer_fallback sampleRenderers [2, 1, 2] 500 5 (by decide) (by decide)).2.2
      (by decide) (by decide)⟩

/-- C14: `FindPokedRenderer` returns `NULL` only for the empty collection: for every point
the result is none when the collection has no renderer, and is a renderer of the
collection when the collection is not empty. -/
theorem poked_renderer_none_iff_empty {R : Type} (V : RendererMethods R) (rc : List R)
    (x y : Int) :
    FindPokedRenderer V [] x y = none
    ∧ (rc ≠ [] → ∃ r ∈ rc, FindPokedRenderer V rc x y = some r)
    ∧ (FindPokedRenderer V rc x y = none ↔ rc = []) := by
  have hempty : FindPokedRenderer V [] x y = none := by
    simp [FindPokedRenderer, pokeLoop, GetFirstRenderer]
  have hmem : rc ≠ [] → ∃ r ∈ rc, FindPokedRenderer V rc x y = some r := by
    intro hne
    rcases FindPokedRenderer_cases V rc x y with
      ⟨r, hr, ht⟩ | ⟨_, ⟨r, hr, ht⟩ | ⟨_, ⟨r, hr, ht⟩ | ⟨_, hfirst⟩⟩⟩
    · exact ⟨r, (IsTopmost.mem _ _ _ ht).1, hr⟩
    · exact ⟨r, (IsTopmost.mem _ _ _ ht).1, hr⟩
    · exact ⟨r, (IsTopmost.mem _ _ _ ht).1, hr⟩
    · cases rc with
      | nil => exact absurd rfl hne
      | cons a rest =>
        exact ⟨a, List.mem_cons_self _ _, by simpa [GetFirstRenderer] using hfirst⟩
  refine ⟨hempty, hmem, ?_, ?_⟩
  · intro hnone
    by_contra hne
    obtain ⟨r, _, hr⟩ := hmem hne
    rw [hr] at hnone
    exact Option.noConfusion hnone
  · intro e
    rw [e]
    exact hempty

theorem poked_renderer_none_iff_empty_witness :
    FindPokedRenderer sampleRenderers ([] : List Nat) 5 5 = none
    ∧ ∃ r ∈ [2, 2], FindPokedRenderer sampleRenderers [2, 2] 500 5 = some r :=
  ⟨(poked_renderer_none_iff_empty sampleRenderers [2, 2] 5 5).1,
    (poked_renderer_none_iff_empty sampleRenderers [2, 2] 500 5).2.1 (by decide)⟩

/-! ## The camera flights -/

theorem length_filter_flatten_map {α β : Type} (p : β → Bool) (f : α → List β) (c : Nat)
    (l : List α) (h : ∀ a ∈ l, ((f a).filter p).length = c) :
    (((l.map f).flatten).filter p).length = c * l.length := by
  induction l with
  | nil => simp
  | cons a rest ih =>
    have h1 := h a (List.mem_cons_self _ _)
    have h2 := ih (fun b hb => h b (List.mem_cons_of_mem _ hb))
    simp only [List.map_cons, List.flatten_cons, List.filter_append, List.length_append,
      List.length_cons, h1, h2]
    ring

theorem filterMap_flatten_map {α β γ : Type} (g : β → Option γ) (f : α → List β)
    (q : α → γ) (l : List α) (h : ∀ a ∈ l, (f a).filterMap g = [q a]) :
    ((l.map f).flatten).filterMap g = l.map q := by
  induction l with
  | nil => simp
  | cons a rest ih =>
    have h1 := h a (List.mem_cons_self _ _)
    have h2 := ih (fun b hb => h b (List.mem_cons_of_mem _ hb))
    simp only [List.map_cons, List.flatten_cons, List.filterMap_append, h1, h2,
      List.singleton_append]

theorem Render_getLast {K : Type} (I : FlyInteractor K) (pre : List (FlightCall K)) :
    (pre ++ Render I).getLast? = some FlightCall.InvokeRenderEvent := by
  unfold Render
  rw [← List.append_assoc]
  simp

theorem Render_count {K : Type} (I : FlyInteractor K) :
    ((Render I).filter FlightCall.isRenderEvent).length = 1
    ∧ ((Render I).filter FlightCall.isRenderWindowRender).length
        = if I.RenderWindow && I.Enabled && I.EnableRender then 1 else 0 := by
  unfold Render
  cases I.RenderWindow && I.Enabled && I.EnableRender <;>
    simp [FlightCall.isRenderEvent, FlightCall.isRenderWindowRender]

theorem FlyTo_frame_counts {K : Type} [Field K] (I : FlyInteractor K) (flyFrom d : Vec3 K)
    (delta : K) (i : Int) :
    (FlyTo_frame I flyFrom d delta i).getLast? = some FlightCall.InvokeRenderEvent
    ∧ ((FlyTo_frame I flyFrom d delta i).filter FlightCall.isRenderEvent).length = 1
    ∧ ((FlyTo_frame I flyFrom d delta i).filter FlightCall.isRenderWindowRender).length
        = if I.RenderWindow && I.Enabled && I.EnableRender then 1 else 0 := by
  refine ⟨Render_getLast I _, ?_, ?_⟩
  · simp [FlyTo_frame, List.filter_cons, FlightCall.isRenderEvent, (Render_count I).1]
  · simp only [FlyTo_frame, List.filter_append, List.length_append, (Render_count I).2]
    simp [List.filter_cons, FlightCall.isRenderWindowRender]

theorem FlyToImage_frame_counts {K : Type} [Field K] (I : FlyInteractor K)
    (flyFrom positionFrom d : Vec3 K) (delta : K) (i : Int) :
    (FlyToImage_frame I flyFrom positionFrom d delta i).getLast?
        = some FlightCall.InvokeRenderEvent
    ∧ ((FlyToImage_frame I flyFrom positionFrom d delta i).filter
          FlightCall.isRenderEvent).length = 1
    ∧ ((FlyToImage_frame I flyFrom positionFrom d delta i).filter
          FlightCall.isRenderWindowRender).length
        = if I.RenderWindow && I.Enabled && I.EnableRender then 1 else 0 := by
  refine ⟨Render_getLast I _, ?_, ?_⟩
  · simp [FlyToImage_frame, List.filter_cons, FlightCall.isRenderEvent, (Render_count I).1]
  · simp only [FlyToImage_frame, List.filter_append, List.length_append, (Render_count I).2]
    simp [List.filter_cons, FlightCall.isRenderWindowRender]

/-- C15: for every frame count `N >= 1` (so that `N.toNat` is `N`), every target and every
starting camera, `FlyTo` and `FlyToImage` run `N` frames; every frame ends with the render
event of `Render()` and holds it once, so the flight invokes it exactly `N` times.
`RenderWindow->Render()` is called once in every frame as well when there is a render
window and the interactor is enabled and may render, and never otherwise. -/
theorem flight_renders_each_frame {K : Type} [Field K] [DecidableEq K] (sqrt : K → K)
    (I : FlyInteractor K) (camera : vtkCamera K) (x y z : K)
    (hN : 1 ≤ I.NumberOfFlyFrames) :
    Int.ofNat I.NumberOfFlyFrames.toNat = I.NumberOfFlyFrames
    ∧ ((FlyTo_frames sqrt I camera x y z).length = I.NumberOfFlyFrames.toNat
      ∧ (∀ frame ∈ FlyTo_frames sqrt I camera x y z,
          frame.getLast? = some FlightCall.InvokeRenderEvent
          ∧ (frame.filter FlightCall.isRenderEvent).length = 1)
      ∧ ((FlyTo sqrt I camera x y z).filter FlightCall.isRenderEvent).length
          = I.NumberOfFlyFrames.toNat
      ∧ ((FlyTo sqrt I camera x y z).filter FlightCall.isRenderWindowRender).length
          = if I.RenderWindow && I.Enabled && I.EnableRender then I.NumberOfFlyFrames.toNat
            else 0)
    ∧ ((FlyToImage_frames sqrt I camera x y).length = I.NumberOfFlyFrames.toNat
      ∧ (∀ frame ∈ FlyToImage_frames sqrt I camera x y,
          frame.getLast? = some FlightCall.InvokeRenderEvent
          ∧ (frame.filter FlightCall.isRenderEvent).length = 1)
      ∧ ((FlyToImage sqrt I camera x y).filter FlightCall.isRenderEvent).length
          = I.NumberOfFlyFrames.toNat
      ∧ ((FlyToImage sqrt I camera x y).filter FlightCall.isRenderWindowRender).length
          = if I.RenderWindow && I.Enabled && I.EnableRender then I.NumberOfFlyFrames.toNat
            else 0) := by
  refine ⟨Int.toNat_of_nonneg (by omega), ⟨?_, ?_, ?_, ?_⟩, ⟨?_, ?_, ?_, ?_⟩⟩
  · simp [FlyTo_frames]
  · intro frame hf
    simp only [FlyTo_frames, List.mem_map] at hf
    obtain ⟨k, _, rfl⟩ := hf
    exact ⟨(FlyTo_frame_counts I _ _ _ _).1, (FlyTo_frame_counts I _ _ _ _).2.1⟩
  · unfold FlyTo FlyTo_frames
    rw [length_filter_flatten_map _ _ 1 _ (fun k _ => (FlyTo_frame_counts I _ _ _ _).2.1)]
    simp
  · unfold FlyTo FlyTo_frames
    rw [length_filter_flatten_map _ _ _ _ (fun k _ => (FlyTo_frame_counts I _ _ _ _).2.2)]
    cases I.RenderWindow && I.Enabled && I.EnableRender <;> simp
  · simp [FlyToImage_frames]
  · intro frame hf
    simp only [FlyToImage_frames, List.mem_map] at hf
    obtain ⟨k, _, rfl⟩ := hf
    exact ⟨(FlyToImage_frame_counts I _ _ _ _ _).1,
      (FlyToImage_frame_counts I _ _ _ _ _).2.1⟩
  · unfold FlyToImage FlyToImage_frames
    rw [length_filter_flatten_map _ _ 1 _
      (fun k _ => (FlyToImage_frame_counts I _ _ _ _ _).2.1)]
    simp
  · unfold FlyToImage FlyToImage_frames
    rw [length_filter_flatten_map _ _ _ _
      (fun k _ => (FlyToImage_frame_counts I _ _ _ _ _).2.2)]
    cases I.RenderWindow && I.Enabled && I.EnableRender <;> simp

theorem flight_renders_each_frame_witness :
    ((FlyTo sqrtRat sampleFlyInteractor sampleCamera 4 6 3).filter
        FlightCall.isRenderEvent).length = 5
    ∧ ((FlyToImage sqrtRat sampleFlyInteractor sampleCamera 4 6).filter
        FlightCall.isRenderEvent).length = 5 :=
  ⟨(flight_renders_each_frame sqrtRat sampleFlyInteractor sampleCamera 4 6 3
      (by decide)).2.1.2.2.1,
    (flight_renders_each_frame sqrtRat sampleFlyInteractor sampleCamera 4 6 3
      (by decide)).2.2.2.2.1⟩

theorem Render_sets_nothing {K : Type} (I : FlyInteractor K) :
    focalPointsSet (Render I) = [] ∧ positionsSet (Render I) = []
    ∧ dollyFactors (Render I) = []
    ∧ ∀ c ∈ Render I, c ≠ FlightCall.OrthogonalizeViewUp := by
  unfold Render
  cases I.RenderWindow && I.Enabled && I.EnableRender <;>
    simp [focalPointsSet, positionsSet, dollyFactors]

theorem FlyTo_frame_sets {K : Type} [Field K] (I : FlyInteractor K) (flyFrom d : Vec3 K)
    (delta : K) (i : Int) :
    focalPointsSet (FlyTo_frame I flyFrom d delta i) = [flyStep flyFrom d delta i]
    ∧ dollyFactors (FlyTo_frame I flyFrom d delta i)
        = [I.Dolly / (I.NumberOfFlyFrames : K) + 1] := by
  have h := Render_sets_nothing I
  constructor
  · have h1 := h.1
    unfold focalPointsSet at h1 ⊢
    simp only [FlyTo_frame, List.filterMap_append, h1]
    simp [List.filterMap_cons]
  · have h1 := h.2.2.1
    unfold dollyFactors at h1 ⊢
    simp only [FlyTo_frame, List.filterMap_append, h1]
    simp [List.filterMap_cons]

theorem FlyToImage_frame_sets {K : Type} [Field K] (I : FlyInteractor K)
    (flyFrom positionFrom d : Vec3 K) (delta : K) (i : Int) :
    focalPointsSet (FlyToImage_frame I flyFrom positionFrom d delta i)
        = [flyStep flyFrom d delta i]
    ∧ positionsSet (FlyToImage_frame I flyFrom positionFrom d delta i)
        = [flyStep positionFrom d delta i]
    ∧ dollyFactors (FlyToImage_frame I flyFrom positionFrom d delta i)
        = [I.Dolly / (I.NumberOfFlyFrames : K) + 1] := by
  have h := Render_sets_nothing I
  refine ⟨?_, ?_, ?_⟩
  · have h1 := h.1
    unfold focalPointsSet at h1 ⊢
    simp only [FlyToImage_frame, List.filterMap_append, h1]
    simp [List.filterMap_cons]
  · have h1 := h.2.1
    unfold positionsSet at h1 ⊢
    simp only [FlyToImage_frame, List.filterMap_append, h1]
    simp [List.filterMap_cons]
  · have h1 := h.2.2.1
    unfold dollyFactors at h1 ⊢
    simp only [FlyToImage_frame, List.filterMap_append, h1]
    simp [List.filterMap_cons]

theorem sq_sum_eq_zero {K : Type} [LinearOrderedField K] (a b c : K)
    (h : a * a + b * b + c * c = 0) : a = 0 ∧ b = 0 ∧ c = 0 := by
  have ha := mul_self_nonneg a
  have hb := mul_self_nonneg b
  have hc := mul_self_nonneg c
  have ha0 : a * a = 0 := by linarith
  have hb0 : b * b = 0 := by linarith
  have hc0 : c * c = 0 := by linarith
  exact ⟨mul_self_eq_zero.mp ha0, mul_self_eq_zero.mp hb0, mul_self_eq_zero.mp hc0⟩

/-- One coordinate of a frame of `FlyTo`: with an exact square root, moving by
`d * i * delta` from the start is moving the fraction `i / N` of the way to the target. -/
theorem Normalize_step {K : Type} [LinearOrderedField K] (sqrt : K → K) (v : Vec3 K)
    (N i : K) (hN : N ≠ 0) (hs : sqrt v.normSq * sqrt v.normSq = v.normSq) :
    (Normalize sqrt v).2.x * i * ((Normalize sqrt v).1 / N) = i / N * v.x
    ∧ (Normalize sqrt v).2.y * i * ((Normalize sqrt v).1 / N) = i / N * v.y
    ∧ (Normalize sqrt v).2.z * i * ((Normalize sqrt v).1 / N) = i / N * v.z := by
  unfold Vec3.normSq at hs
  by_cases hden : sqrt (v.x * v.x + v.y * v.y + v.z * v.z) = 0
  · have h0 : v.x * v.x + v.y * v.y + v.z * v.z = 0 := by
      rw [← hs, hden, mul_zero]
    obtain ⟨hx, hy, hz⟩ := sq_sum_eq_zero _ _ _ h0
    simp only [Normalize, ne_eq, hden, not_true_eq_false, if_false]
    simp [hx, hy, hz]
  · simp only [Normalize, ne_eq, hden, not_false_eq_true, if_true]
    refine ⟨?_, ?_, ?_⟩ <;> field_simp <;> ring

theorem FlyTo_direction_eq {K : Type} [Field K] [DecidableEq K] (sqrt : K → K)
    (camera : vtkCamera K) (x y z : K) :
    FlyTo_direction sqrt camera x y z
      = Normalize sqrt (camera.FocalPoint.to { x := x, y := y, z := z }) := rfl

/-- C16: for every frame count `N >= 1`, start focal point `f0` and target `t`, in exact
arithmetic (the `double`s form an ordered field and the square root taken by
`vtkMath::Normalize` is exact at the squared distance): the focal points that `FlyTo` sets,
frame by frame, are `f0 + d*i*delta` for `i = 1..N`, where `distance` and `d` are what
`vtkMath::Normalize` returns for `t - f0` and `delta = distance/N`; `distance` squared is
the squared length of `t - f0` and `d` has length 1 when `t` differs from `f0`; these focal
points are the linear interpolation `f0 + (i/N)*(t - f0)`; and the last focal point set is
the target `t`. -/
theorem flyTo_focal_points_interpolate {K : Type} [LinearOrderedField K] (sqrt : K → K)
    (I : FlyInteractor K) (camera : vtkCamera K) (x y z : K)
    (hN : 1 ≤ I.NumberOfFlyFrames)
    (hs : sqrt (camera.FocalPoint.to { x := x, y := y, z := z }).normSq
        * sqrt (camera.FocalPoint.to { x := x, y := y, z := z }).normSq
        = (camera.FocalPoint.to { x := x, y := y, z := z }).normSq) :
    focalPointsSet (FlyTo sqrt I camera x y z)
        = (List.range I.NumberOfFlyFrames.toNat).map (fun (k : Nat) =>
            flyStep camera.FocalPoint (FlyTo_direction sqrt camera x y z).2
              ((FlyTo_direction sqrt camera x y z).1 / (I.NumberOfFlyFrames : K))
              ((k : Int) + 1))
    ∧ (FlyTo_direction sqrt camera x y z).1 * (FlyTo_direction sqrt camera x y z).1
        = (camera.FocalPoint.to { x := x, y := y, z := z }).normSq
    ∧ (({ x := x, y := y, z := z } : Vec3 K) ≠ camera.FocalPoint →
        (FlyTo_direction sqrt camera x y z).2.normSq = 1)
    ∧ focalPointsSet (FlyTo sqrt I camera x y z)
        = (List.range I.NumberOfFlyFrames.toNat).map (fun (k : Nat) =>
            Vec3.lerp camera.FocalPoint { x := x, y := y, z := z }
              (((k : K) + 1) / (I.NumberOfFlyFrames : K)))
    ∧ (focalPointsSet (FlyTo sqrt I camera x y z)).getLast?
        = some { x := x, y := y, z := z } := by
  have hNK : (I.NumberOfFlyFrames : K) ≠ 0 := by
    have : (0 : Int) < I.NumberOfFlyFrames := by omega
    exact ne_of_gt (by exact_mod_cast this)
  have hcode : focalPointsSet (FlyTo sqrt I camera x y z) = _ :=
    filterMap_flatten_map _ _ _ _ (fun k _ => (FlyTo_frame_sets I _ _ _ _).1)
  have hinterp : ∀ k : Nat,
      flyStep camera.FocalPoint (FlyTo_direction sqrt camera x y z).2
          ((FlyTo_direction sqrt camera x y z).1 / (I.NumberOfFlyFrames : K)) ((k : Int) + 1)
      = Vec3.lerp camera.FocalPoint { x := x, y := y, z := z }
          (((k : K) + 1) / (I.NumberOfFlyFrames : K)) := by
    intro k
    obtain ⟨h1, h2, h3⟩ := Normalize_step sqrt
      (camera.FocalPoint.to { x := x, y := y, z := z }) (I.NumberOfFlyFrames : K)
      (((k : Int) + 1 : Int) : K) hNK hs
    rw [FlyTo_direction_eq]
    simp only [flyStep, Vec3.lerp, h1, h2, h3]
    push_cast
    rfl
  have hvec : ∀ v : Vec3 K, sqrt v.normSq * sqrt v.normSq = v.normSq →
      (Normalize sqrt v).1 * (Normalize sqrt v).1 = v.normSq
      ∧ (v.normSq ≠ 0 → (Normalize sqrt v).2.normSq = 1) := by
    intro v hv
    by_cases hden : sqrt v.normSq = 0
    · have h0 : v.normSq = 0 := by rw [← hv, hden, mul_zero]
      unfold Vec3.normSq at hden h0 hv
      refine ⟨?_, fun hne => absurd h0 hne⟩
      simp only [Normalize, ne_eq, hden, not_true_eq_false, if_false]
      simp [Vec3.normSq, h0]
    · unfold Vec3.normSq at hden hv
      refine ⟨?_, fun _ => ?_⟩
      · simp only [Normalize, ne_eq, hden, not_false_eq_true, if_true]
        exact hv
      · simp only [Normalize, ne_eq, hden, not_false_eq_true, if_true, Vec3.normSq]
        field_simp
        linear_combination -hv
  refine ⟨hcode, ?_, ?_, ?_, ?_⟩
  · rw [FlyTo_direction_eq]
    exact (hvec _ hs).1
  · intro hne
    rw [FlyTo_direction_eq]
    apply (hvec _ hs).2
    intro h0
    obtain ⟨hx, hy, hz⟩ := sq_sum_eq_zero _ _ _ h0
    apply hne
    cases hc : camera.FocalPoint with
    | mk fx fy fz =>
      rw [hc] at hx hy hz
      simp only [Vec3.to] at hx hy hz
      simp only [Vec3.mk.injEq]
      exact ⟨sub_eq_zero.mp hx, sub_eq_zero.mp hy, sub_eq_zero.mp hz⟩
  · rw [hcode]
    exact List.map_congr_left (fun k _ => hinterp k)
  · rw [hcode]
    obtain ⟨n, hn⟩ : ∃ n, I.NumberOfFlyFrames.toNat = n + 1 :=
      ⟨I.NumberOfFlyFrames.toNat - 1, by omega⟩
    have hcast : (I.NumberOfFlyFrames : K) = (n : K) + 1 := by
      have h1 : I.NumberOfFlyFrames = ((n + 1 : Nat) : Int) := by omega
      rw [h1]
      push_cast
      rfl
    rw [hn, List.range_succ, List.map_append, List.map_singleton, List.getLast?_append]
    simp only [List.getLast?_singleton, Option.or_some]
    rw [hinterp n, hcast]
    have hne : (n : K) + 1 ≠ 0 := by rw [← hcast]; exact hNK
    simp [Vec3.lerp, div_self hne]

theorem sqrtRat_25 : sqrtRat 25 * sqrtRat 25 = 25 := by
  norm_num [sqrtRat, List.range, List.range.loop]

theorem flyTo_focal_points_interpolate_witness :
    focalPointsSet (FlyTo sqrtRat sampleFlyInteractor sampleCamera 4 6 3)
        = (List.range 5).map (fun (k : Nat) =>
            Vec3.lerp sampleCamera.FocalPoint { x := 4, y := 6, z := 3 } (((k : ℚ) + 1) / 5))
    ∧ (focalPointsSet (FlyTo sqrtRat sampleFlyInteractor sampleCamera 4 6 3)).getLast?
        = some { x := 4, y := 6, z := 3 } :=
  ⟨(flyTo_focal_points_interpolate sqrtRat sampleFlyInteractor sampleCamera 4 6 3
      (by decide)
      (by norm_num [Vec3.to, Vec3.normSq, sampleCamera, sqrtRat_25])).2.2.2.1,
    (flyTo_focal_points_interpolate sqrtRat sampleFlyInteractor sampleCamera 4 6 3
      (by decide)
      (by norm_num [Vec3.to, Vec3.normSq, sampleCamera, sqrtRat_25])).2.2.2.2⟩

theorem Normalize_zero {K : Type} [Field K] [DecidableEq K] (sqrt : K → K) :
    (Normalize sqrt { x := 0, y := 0, z := 0 }).2 = { x := 0, y := 0, z := 0 } := by
  simp only [Normalize]
  split <;> simp

theorem Normalize_z {K : Type} [Field K] [DecidableEq K] (sqrt : K → K) (a b : K) :
    (Normalize sqrt { x := a, y := b, z := 0 }).2.z = 0 := by
  simp only [Normalize]
  split <;> simp

theorem flyStep_zero {K : Type} [Field K] (start : Vec3 K) (delta : K) (i : Int) :
    flyStep start { x := 0, y := 0, z := 0 } delta i = start := by
  simp [flyStep]

theorem map_range_const {α : Type} (n : Nat) (c : α) :
    (List.range n).map (fun _ => c) = List.replicate n c := by
  induction n with
  | zero => rfl
  | succ n ih => rw [List.range_succ, List.map_append, ih, List.replicate_succ']; rfl

/-- C17: for every frame count `N >= 1` and every camera, a flight whose target is the
starting focal point applies the dolly exactly `N` times, each time with the factor
`Dolly/N + 1`, and every focal point it sets is the starting focal point; in `FlyToImage`
every camera position it sets is the starting position as well. -/
theorem flight_to_start_dollies_only {K : Type} [Field K] [DecidableEq K] (sqrt : K → K)
    (I : FlyInteractor K) (camera : vtkCamera K) (hN : 1 ≤ I.NumberOfFlyFrames) :
    Int.ofNat I.NumberOfFlyFrames.toNat = I.NumberOfFlyFrames
    ∧ dollyFactors
          (FlyTo sqrt I camera camera.FocalPoint.x camera.FocalPoint.y camera.FocalPoint.z)
        = List.replicate I.NumberOfFlyFrames.toNat (I.Dolly / (I.NumberOfFlyFrames : K) + 1)
    ∧ focalPointsSet
          (FlyTo sqrt I camera camera.FocalPoint.x camera.FocalPoint.y camera.FocalPoint.z)
        = List.replicate I.NumberOfFlyFrames.toNat camera.FocalPoint
    ∧ dollyFactors (FlyToImage sqrt I camera camera.FocalPoint.x camera.FocalPoint.y)
        = List.replicate I.NumberOfFlyFrames.toNat (I.Dolly / (I.NumberOfFlyFrames : K) + 1)
    ∧ focalPointsSet (FlyToImage sqrt I camera camera.FocalPoint.x camera.FocalPoint.y)
        = List.replicate I.NumberOfFlyFrames.toNat camera.FocalPoint
    ∧ positionsSet (FlyToImage sqrt I camera camera.FocalPoint.x camera.FocalPoint.y)
        = List.replicate I.NumberOfFlyFrames.toNat camera.Position := by
  have hd1 : (FlyTo_direction sqrt camera camera.FocalPoint.x camera.FocalPoint.y
      camera.FocalPoint.z).2 = { x := 0, y := 0, z := 0 } := by
    simp only [FlyTo_direction, sub_self]
    exact Normalize_zero sqrt
  have hd2 : (FlyToImage_direction sqrt camera camera.FocalPoint.x camera.FocalPoint.y).2
      = { x := 0, y := 0, z := 0 } := by
    simp only [FlyToImage_direction, sub_self]
    exact Normalize_zero sqrt
  refine ⟨Int.toNat_of_nonneg (by omega), ?_, ?_, ?_, ?_, ?_⟩
  · rw [← map_range_const]
    exact filterMap_flatten_map _ _ _ _ (fun k _ => (FlyTo_frame_sets I _ _ _ _).2)
  · rw [← map_range_const]
    refine filterMap_flatten_map _ _ _ _ (fun k _ => ?_)
    change focalPointsSet _ = _
    rw [(FlyTo_frame_sets I _ _ _ _).1, hd1, flyStep_zero]
  · rw [← map_range_const]
    exact filterMap_flatten_map _ _ _ _ (fun k _ => (FlyToImage_frame_sets I _ _ _ _ _).2.2)
  · rw [← map_range_const]
    refine filterMap_flatten_map _ _ _ _ (fun k _ => ?_)
    change focalPointsSet _ = _
    rw [(FlyToImage_frame_sets I _ _ _ _ _).1, hd2, flyStep_zero]
  · rw [← map_range_const]
    refine filterMap_flatten_map _ _ _ _ (fun k _ => ?_)
    change positionsSet _ = _
    rw [(FlyToImage_frame_sets I _ _ _ _ _).2.1, hd2, flyStep_zero]

theorem flight_to_start_dollies_only_witness :
    dollyFactors (FlyTo sqrtRat sampleFlyInteractor sampleCamera 1 2 3)
        = List.replicate 5 (11 / 10)
    ∧ focalPointsSet (FlyTo sqrtRat sampleFlyInteractor sampleCamera 1 2 3)
        = List.replicate 5 { x := 1, y := 2, z := 3 }
    ∧ positionsSet (FlyToImage sqrtRat sampleFlyInteractor sampleCamera 1 2)
        = List.replicate 5 { x := 1, y := 2, z := 13 } := by
  have h := flight_to_start_dollies_only sqrtRat sampleFlyInteractor sampleCamera
    (by decide)
  refine ⟨?_, h.2.2.1, h.2.2.2.2.2⟩
  have h1 := h.2.1
  norm_num [sampleFlyInteractor] at h1
  exact h1

/-- C18: in `FlyToImage`, for every frame count, target `(x, y)` and starting camera, every
frame sets a focal point `p` and a camera position `q`, then dollies, resets the clipping
range and renders; `p` has the `z` of the starting focal point, `q` has the `z` of the
starting position, and `q` is displaced from the starting position by the vector by which
`p` is displaced from the starting focal point; `OrthogonalizeViewUp` is never called. -/
theorem flyToImage_moves_in_plane {K : Type} [Field K] [DecidableEq K] (sqrt : K → K)
    (I : FlyInteractor K) (camera : vtkCamera K) (x y : K) :
    (FlyToImage_frames sqrt I camera x y).length = I.NumberOfFlyFrames.toNat
    ∧ (∀ frame ∈ FlyToImage_frames sqrt I camera x y, ∃ p q,
        frame = [FlightCall.SetFocalPoint p, FlightCall.SetPosition q,
            FlightCall.Dolly (I.Dolly / (I.NumberOfFlyFrames : K) + 1),
            FlightCall.ResetCameraClippingRange] ++ Render I
        ∧ p.z = camera.FocalPoint.z
        ∧ q.z = camera.Position.z
        ∧ camera.Position.to q = camera.FocalPoint.to p)
    ∧ (∀ p ∈ focalPointsSet (FlyToImage sqrt I camera x y), p.z = camera.FocalPoint.z)
    ∧ (∀ q ∈ positionsSet (FlyToImage sqrt I camera x y), q.z = camera.Position.z)
    ∧ (∀ c ∈ FlyToImage sqrt I camera x y, c ≠ FlightCall.OrthogonalizeViewUp) := by
  have hz : (FlyToImage_direction sqrt camera x y).2.z = 0 := by
    simp only [FlyToImage_direction]
    exact Normalize_z sqrt _ _
  have hstep : ∀ (start : Vec3 K) (delta : K) (i : Int),
      (flyStep start (FlyToImage_direction sqrt camera x y).2 delta i).z = start.z := by
    intro start delta i
    simp [flyStep, hz]
  have hfocal : focalPointsSet (FlyToImage sqrt I camera x y) = _ :=
    filterMap_flatten_map _ _ _ _ (fun k _ => (FlyToImage_frame_sets I _ _ _ _ _).1)
  have hpos : positionsSet (FlyToImage sqrt I camera x y) = _ :=
    filterMap_flatten_map _ _ _ _ (fun k _ => (FlyToImage_frame_sets I _ _ _ _ _).2.1)
  refine ⟨by simp [FlyToImage_frames], ?_, ?_, ?_, ?_⟩
  · intro frame hf
    simp only [FlyToImage_frames, List.mem_map] at hf
    obtain ⟨k, _, rfl⟩ := hf
    refine ⟨_, _, rfl, hstep _ _ _, hstep _ _ _, ?_⟩
    simp [Vec3.to, flyStep]
  · intro p hp
    rw [hfocal] at hp
    obtain ⟨k, _, rfl⟩ := List.mem_map.mp hp
    exact hstep _ _ _
  · intro q hq
    rw [hpos] at hq
    obtain ⟨k, _, rfl⟩ := List.mem_map.mp hq
    exact hstep _ _ _
  · intro c hc
    simp only [FlyToImage, FlyToImage_frames, List.mem_flatten, List.mem_map] at hc
    obtain ⟨frame, ⟨k, _, rfl⟩, hc⟩ := hc
    simp only [FlyToImage_frame, List.mem_append, List.mem_cons, List.mem_singleton,
      List.not_mem_nil, or_false] at hc
    rcases hc with (rfl | rfl | rfl | rfl) | hc
    · exact fun h => FlightCall.noConfusion h
    · exact fun h => FlightCall.noConfusion h
    · exact fun h => FlightCall.noConfusion h
    · exact fun h => FlightCall.noConfusion h
    · exact (Render_sets_nothing I).2.2.2 c hc

theorem flyToImage_moves_in_plane_witness :
    (FlyToImage_frames sqrtRat sampleFlyInteractor sampleCamera 4 6).length = 5
    ∧ (∀ p ∈ focalPointsSet (FlyToImage sqrtRat sampleFlyInteractor sampleCamera 4 6),
        p.z = 3)
    ∧ (∀ q ∈ positionsSet (FlyToImage sqrtRat sampleFlyInteractor sampleCamera 4 6),
        q.z = 13) :=
  ⟨(flyToImage_moves_in_plane sqrtRat sampleFlyInteractor sampleCamera 4 6).1,
    (flyToImage_moves_in_plane sqrtRat sampleFlyInteractor sampleCamera 4 6).2.2.1,
    (flyToImage_moves_in_plane sqrtRat sampleFlyInteractor sampleCamera 4 6).2.2.2.1⟩

/-! ## A failed create consumes an id -/

/-- C21: in every state, `CreateRepeatingTimer` and `CreateOneShotTimer` leave the id
counter one above what it was, whatever the platform returns, the calls that fail and
return 0 included. After every sequence of calls from the state after the constructor, a
create that fails on the platform returns 0, keeps the map of records as it was and leaves
the counter at an id that has no record, so that the old-style `DestroyTimer()` called next
finds nothing: it returns 0, makes no platform call and changes nothing. -/
theorem failed_create_consumes_id (s : Interactor) (ops : List TimerOp) (d : Nat) :
    (∀ p, GetCurrentTimerId (CreateRepeatingTimer s d p).2 = GetCurrentTimerId s + 1)
    ∧ (∀ p, GetCurrentTimerId (CreateOneShotTimer s d p).2 = GetCurrentTimerId s + 1)
    ∧ ((CreateRepeatingTimer (runOps ops).state d 0).1 = 0
      ∧ (CreateRepeatingTimer (runOps ops).state d 0).2.TimerMap
          = (runOps ops).state.TimerMap
      ∧ mapFind (CreateRepeatingTimer (runOps ops).state d 0).2.TimerMap
          (GetCurrentTimerId (CreateRepeatingTimer (runOps ops).state d 0).2) = none
      ∧ ∀ destroyed,
          DestroyTimer_void (CreateRepeatingTimer (runOps ops).state d 0).2 destroyed
            = (0, (CreateRepeatingTimer (runOps ops).state d 0).2))
    ∧ ((CreateOneShotTimer (runOps ops).state d 0).1 = 0
      ∧ (CreateOneShotTimer (runOps ops).state d 0).2.TimerMap
          = (runOps ops).state.TimerMap
      ∧ mapFind (CreateOneShotTimer (runOps ops).state d 0).2.TimerMap
          (GetCurrentTimerId (CreateOneShotTimer (runOps ops).state d 0).2) = none
      ∧ ∀ destroyed,
          DestroyTimer_void (CreateOneShotTimer (runOps ops).state d 0).2 destroyed
            = (0, (CreateOneShotTimer (runOps ops).state d 0).2)) := by
  obtain ⟨_, _, hn, _⟩ := runOps_Inv ops
  have hfresh : mapFind (runOps ops).state.TimerMap ((runOps ops).state.vtkTimerId + 1)
      = none := by
    cases hf : mapFind (runOps ops).state.TimerMap ((runOps ops).state.vtkTimerId + 1) with
    | none => rfl
    | some rec =>
      have := (hn _ (mem_of_mapFind _ _ _ hf)).2.2.1
      simp at this
  refine ⟨?_, ?_, ⟨?_, ?_, ?_, ?_⟩, ⟨?_, ?_, ?_, ?_⟩⟩
  · intro p
    by_cases h0 : 0 = p <;> simp [CreateRepeatingTimer, GetCurrentTimerId, Interactor.call, h0]
  · intro p
    by_cases h0 : 0 = p <;> simp [CreateOneShotTimer, GetCurrentTimerId, Interactor.call, h0]
  · simp [CreateRepeatingTimer, Interactor.call]
  · simp [CreateRepeatingTimer, Interactor.call]
  · simpa [CreateRepeatingTimer, GetCurrentTimerId, Interactor.call] using hfresh
  · intro destroyed
    simp [DestroyTimer_void, CreateRepeatingTimer, Interactor.call, hfresh]
  · simp [CreateOneShotTimer, Interactor.call]
  · simp [CreateOneShotTimer, Interactor.call]
  · simpa [CreateOneShotTimer, GetCurrentTimerId, Interactor.call] using hfresh
  · intro destroyed
    simp [DestroyTimer_void, CreateOneShotTimer, Interactor.call, hfresh]

theorem failed_create_consumes_id_witness :
    GetCurrentTimerId (runOps mixedTimers).state = 4
    ∧ GetCurrentTimerId (CreateRepeatingTimer (runOps mixedTimers).state 5 0).2 = 5
    ∧ (CreateRepeatingTimer (runOps mixedTimers).state 5 0).1 = 0
    ∧ mapFind (CreateRepeatingTimer (runOps mixedTimers).state 5 0).2.TimerMap 4
        = some ⟨8, .OneShotTimer, 3⟩
    ∧ (∀ destroyed,
        DestroyTimer_void (CreateRepeatingTimer (runOps mixedTimers).state 5 0).2 destroyed
          = (0, (CreateRepeatingTimer (runOps mixedTimers).state 5 0).2)) :=
  ⟨by decide, by decide,
    (failed_create_consumes_id initialInteractor mixedTimers 5).2.2.1.1,
    by decide,
    (failed_create_consumes_id initialInteractor mixedTimers 5).2.2.1.2.2.2⟩
